import Mathlib

/-!
# Verification of the taiga-mcp proxy core

Shallow embedding of the core logic of the taiga-mcp repository
(`src/app.py`, `src/taiga_client.py`): field projection (`_slice`),
the idempotency cache (`_IdempotencyStore`), status resolution,
the versioned update flows on both the REST action surface and the
tool surface, idempotent task creation, and tag merging.

Python dict values are modelled by `PyVal`; a JSON object / Python dict
is an association list `Rec` looked up by first occurrence.  Upstream
(network) behaviour is supplied as an explicit environment record, and
each handler returns the list of upstream calls it issued (its trace)
together with its outcome, so that properties such as "no upstream
write is issued" are statements about the trace.
-/

namespace TaigaMcp

/-- A Python/JSON value as it appears in the records this service
manipulates.  `strList` models JSON arrays of strings (tags, watcher
lists); nested objects do not occur in any field the embedded code
reads. -/
inductive PyVal where
  | null
  | int (n : Int)
  | str (s : String)
  | bool (b : Bool)
  | strList (l : List String)
  deriving DecidableEq, Repr

/-- Python truthiness (`if value:`). -/
def pyTruthy : PyVal → Bool
  | .null => false
  | .int n => n ≠ 0
  | .str s => s ≠ ""
  | .bool b => b
  | .strList l => l ≠ []

/-- Decimal digit value of a character. -/
def digitVal (c : Char) : Option Nat :=
  if c.isDigit then some (c.toNat - 48) else none

def digitsToNatAux : List Char → Nat → Option Nat
  | [], acc => some acc
  | c :: rest, acc =>
      match digitVal c with
      | none => none
      | some d => digitsToNatAux rest (acc * 10 + d)

/-- The value of a non-empty all-digit character list. -/
def digitsToNat : List Char → Option Nat
  | [] => none
  | l => digitsToNatAux l 0

/-- Python `int(string)` on decimal strings with an optional leading
minus sign.  (Python additionally strips whitespace and allows `+`/`_`;
the embedded code never passes such strings.) -/
def strToInt (s : String) : Option Int :=
  match s.toList with
  | '-' :: rest => (digitsToNat rest).map (fun n => -(n : Int))
  | l => (digitsToNat l).map (fun n => (n : Int))

/-- Python `int(value)`: succeeds on ints, bools (bool is an int
subclass: `True ↦ 1`), and integer-shaped strings; `None` and lists
raise. -/
def pyToInt : PyVal → Option Int
  | .int n => some n
  | .bool b => some (if b then 1 else 0)
  | .str s => strToInt s
  | .null => none
  | .strList _ => none

/-- Python `str(value)` for the values that can reach a format string. -/
def pyStr : PyVal → String
  | .null => "None"
  | .int n => toString n
  | .str s => s
  | .bool b => if b then "True" else "False"
  | .strList l => toString l

/-- A Python dict / JSON object, as an association list looked up by
first occurrence of the key. -/
abbrev Rec : Type := List (String × PyVal)

namespace Rec

/-- Dict lookup distinguishing "absent" from "present with value". -/
def lookup? (r : Rec) (k : String) : Option PyVal :=
  (r.find? (fun e => e.1 = k)).map (·.2)

/-- Python `k in d`. -/
def hasKey (r : Rec) (k : String) : Bool :=
  (r.lookup? k).isSome

/-- Python `d.get(k)`: `None` both when the key is absent and when the
stored value is `None`. -/
def pyGet (r : Rec) (k : String) : PyVal :=
  (r.lookup? k).getD .null

/-- Python `d.get(k, default)`. -/
def pyGetD (r : Rec) (k : String) (d : PyVal) : PyVal :=
  (r.lookup? k).getD d

/-- Python `d[k] = v`: remove any existing binding, add the new one.
(Python keeps an overwritten key at its old position; only lookup
semantics matter here, so the new binding is appended.) -/
def set (r : Rec) (k : String) (v : PyVal) : Rec :=
  (r.filter (fun e => e.1 ≠ k)) ++ [(k, v)]

/-- Keys of the record, in order. -/
def keys (r : Rec) : List String :=
  r.map (·.1)

@[simp] theorem lookup?_nil (k : String) : Rec.lookup? [] k = none := rfl

theorem lookup?_cons (e : String × PyVal) (r : Rec) (k : String) :
    Rec.lookup? (e :: r) k = if e.1 = k then some e.2 else Rec.lookup? r k := by
  unfold Rec.lookup?
  rw [List.find?_cons]
  by_cases h : e.1 = k
  · simp [h]
  · simp [h]

/-- `find?` is unchanged by filtering with a predicate that every match satisfies. -/
theorem find?_filter_of_imp {α : Type} (l : List α) (p q : α → Bool)
    (h : ∀ a, p a = true → q a = true) :
    (l.filter q).find? p = l.find? p := by
  induction l with
  | nil => rfl
  | cons a t ih =>
      by_cases hq : q a = true
      · rw [List.filter_cons_of_pos hq, List.find?_cons, List.find?_cons]
        cases hp : p a
        · exact ih
        · rfl
      · have hp : p a = false := by
          cases hpa : p a
          · rfl
          · exact absurd (h a hpa) (by simpa using hq)
        rw [List.filter_cons_of_neg (by simpa using hq), List.find?_cons, hp]
        exact ih

theorem lookup?_set_self (r : Rec) (k : String) (v : PyVal) :
    (r.set k v).lookup? k = some v := by
  unfold Rec.set Rec.lookup?
  rw [List.find?_append]
  have hnone : (r.filter (fun e => e.1 ≠ k)).find? (fun e => decide (e.1 = k)) = none := by
    rw [List.find?_eq_none]
    intro e he
    have := List.of_mem_filter he
    simpa using this
  rw [hnone]
  simp [List.find?]

theorem lookup?_set_ne (r : Rec) (k k' : String) (v : PyVal) (h : k' ≠ k) :
    (r.set k v).lookup? k' = r.lookup? k' := by
  unfold Rec.set Rec.lookup?
  rw [List.find?_append]
  rw [find?_filter_of_imp r (fun e => decide (e.1 = k')) (fun e => e.1 ≠ k)
    (by intro a ha; simp at ha; simp [ha, h])]
  cases hf : r.find? (fun e => decide (e.1 = k')) with
  | none => simp [List.find?, Ne.symm h]
  | some e => simp

end Rec

/-! ## Field projection (`_slice`, src/app.py:121-122)

`def _slice(record, keys): return {key: record.get(key) for key in keys if key in record}` -/

/-- `_slice` from src/app.py: keep exactly the whitelisted keys that
are present in the record, with their stored values. -/
def _slice (record : Rec) (keys : List String) : Rec :=
  keys.filterMap (fun k => (record.lookup? k).map (fun v => (k, v)))

/-- `_slice` lookup: exactly the whitelisted keys, with unchanged values. -/
theorem _slice_lookup (record : Rec) (keys : List String) (k : String) :
    (_slice record keys).lookup? k =
      if k ∈ keys then record.lookup? k else none := by
  unfold _slice
  induction keys with
  | nil => simp
  | cons a t ih =>
      rw [List.filterMap_cons]
      cases ha : record.lookup? a with
      | none =>
          rw [Option.map_none']
          rw [ih]
          by_cases hkt : k ∈ t
          · simp [hkt]
          · by_cases hka : k = a
            · subst hka
              simp [hkt, ha]
            · simp [hkt, hka]
      | some v =>
          rw [Option.map_some']
          rw [Rec.lookup?_cons]
          by_cases hka : a = k
          · subst hka
            simp [ha]
          · simp only [hka, if_false]
            rw [ih]
            by_cases hkt : k ∈ t
            · simp [hkt, Ne.symm hka]
            · simp [hkt, Ne.symm hka]

theorem _slice_keys (record : Rec) (keys : List String) :
    (_slice record keys).keys = keys.filter (fun k => record.hasKey k) := by
  unfold _slice Rec.keys Rec.hasKey
  induction keys with
  | nil => rfl
  | cons a t ih =>
      rw [List.filterMap_cons, List.filter_cons]
      cases ha : record.lookup? a with
      | none => simpa [ha] using ih
      | some v => simpa [ha] using ih

/-! ## Sorted duplicate-free tag union (`sorted(set(existing) | set(new))`)

Used by `taiga_stories_update` (src/app.py:1853-1856),
`taiga_tasks_update` (src/app.py:2082-2085) and the archive helpers.
Python's `sorted(set(a) | set(b))` enumerates the member set of `a ++ b`
in ascending order without duplicates; `insertionSort` of the
deduplicated concatenation computes exactly that list. -/

/-- `sorted(set(existing_tags) | set(add_tags))` from src/app.py. -/
def sortedTagUnion (existing add : List String) : List String :=
  List.insertionSort (· ≤ ·) ((existing ++ add).dedup)

theorem sortedTagUnion_sorted (a b : List String) :
    (sortedTagUnion a b).Sorted (· ≤ ·) :=
  List.sorted_insertionSort _ _

theorem sortedTagUnion_nodup (a b : List String) : (sortedTagUnion a b).Nodup :=
  (List.perm_insertionSort _ _).nodup_iff.2 (List.nodup_dedup _)

theorem sortedTagUnion_mem (a b : List String) (x : String) :
    x ∈ sortedTagUnion a b ↔ x ∈ a ∨ x ∈ b := by
  unfold sortedTagUnion
  rw [List.mem_insertionSort, List.mem_dedup, List.mem_append]

/-- The merged tag list depends only on the member set of the inputs:
any reordering or duplication of the input lists gives the same
result. -/
theorem sortedTagUnion_ext (a b a' b' : List String)
    (h : ∀ x, (x ∈ a ∨ x ∈ b) ↔ (x ∈ a' ∨ x ∈ b')) :
    sortedTagUnion a b = sortedTagUnion a' b' := by
  apply List.eq_of_perm_of_sorted (r := (· ≤ ·))
  · refine (List.perm_ext_iff_of_nodup (sortedTagUnion_nodup a b)
      (sortedTagUnion_nodup a' b')).2 ?_
    intro x
    rw [sortedTagUnion_mem, sortedTagUnion_mem]
    exact h x
  · exact sortedTagUnion_sorted a b
  · exact sortedTagUnion_sorted a' b'

/-! ## Sentinel arguments, upstream errors, call traces -/

/-- A tool-surface argument of Python type `T | None | _UnsetType`
(src/app.py:194-201): `unset` is the `UNSET` sentinel meaning "not
supplied", `null` is an explicit `None`. -/
inductive Arg (α : Type) where
  | unset
  | null
  | val (a : α)
  deriving DecidableEq, Repr

/-- Python `x is not UNSET`. -/
def Arg.isSupplied : Arg α → Bool
  | .unset => false
  | _ => true

/-- A status argument value that is not `None`: `int | str`. -/
inductive StatusVal where
  | int (n : Int)
  | str (s : String)
  deriving DecidableEq, Repr

/-- `TaigaAPIError` from src/taiga_client.py:18-19:
`class TaigaAPIError(RuntimeError)` — it carries only the exception
message. -/
structure TaigaAPIError where
  message : String
  deriving DecidableEq, Repr

/-- Python attribute lookup `exc.status_code` on a `TaigaAPIError`.
The class body at src/taiga_client.py:18-19 declares no attributes, and
no site in the repository ever assigns `status_code` on an instance
(every raise is `TaigaAPIError(message)`), so the lookup always fails
with `AttributeError`; `none` models that failure. -/
def TaigaAPIError.statusCodeAttr (_ : TaigaAPIError) : Option Int := none

/-- The message of the `AttributeError` raised by `exc.status_code`. -/
def statusCodeAttributeErrorMsg : String :=
  "\x27TaigaAPIError\x27 object has no attribute \x27status_code\x27"

/-- One upstream call issued through the Taiga client
(src/taiga_client.py). -/
inductive Call where
  | getUserStory (story_id : Int)
  | updateUserStory (story_id : Int) (payload : Rec)
  | listUserStoryStatuses (project_id : Int)
  | getTask (task_id : Int)
  | updateTask (task_id : Int) (payload : Rec)
  | listTaskStatuses (project_id : Int)
  | getEpic (epic_id : Int)
  | updateEpic (epic_id : Int) (payload : Rec)
  | getIssue (issue_id : Int)
  | updateIssue (issue_id : Int) (payload : Rec)
  | createTask (payload : Rec)
  | getProject (project_id : Int)
  | getProjectBySlug (slug : String)
  deriving DecidableEq, Repr

/-- Whether an upstream call mutates state (PATCH/POST). -/
def Call.isWrite : Call → Bool
  | .updateUserStory _ _ => true
  | .updateTask _ _ => true
  | .updateEpic _ _ => true
  | .updateIssue _ _ => true
  | .createTask _ => true
  | _ => false

/-- Outcome of a tool-surface handler: a returned record or a raised
exception (`ValueError`, `TaigaAPIError`, or an `AttributeError` from a
failed attribute lookup). -/
inductive Outcome where
  | ok (result : Rec)
  | valueError (msg : String)
  | taigaError (msg : String)
  | attributeError (msg : String)
  deriving DecidableEq, Repr

/-! ## Entity records

Typed views of the upstream records, containing exactly the fields the
embedded handlers read (`.get("project")`, `.get("description", "")`,
`.get("tags", [])`, `.get("version")`).  An `Option` field is `none`
when the key is absent from the upstream dict; `tags`, when present, is
a JSON array of strings as the Taiga API returns it. -/

structure StoryRec where
  project : PyVal := .null
  description : Option PyVal := none
  tags : Option (List String) := none
  version : PyVal := .null
  deriving DecidableEq, Repr

structure TaskRec where
  project : PyVal := .null
  description : Option PyVal := none
  tags : Option (List String) := none
  version : PyVal := .null
  deriving DecidableEq, Repr

structure EpicRec where
  version : PyVal := .null
  deriving DecidableEq, Repr

structure IssueRec where
  version : PyVal := .null
  deriving DecidableEq, Repr

/-! ## Status resolution (src/app.py:1656-1679) -/

/-- `_resolve_user_story_status_id` from src/app.py:1656-1666, with the
project's fetched status list passed in place of the client.  Returns
the resolved status id (`PyVal.null` models Python `None`, both for a
`None` input and for a matching entry without an `id` key), or the
error message of the raised `TaigaAPIError`. -/
def _resolve_user_story_status_id (statuses : List Rec) (project_id : Int)
    (status : Option StatusVal) : Except String PyVal :=
  match status with
  | none => .ok .null
  | some (.int n) => .ok (.int n)
  | some (.str s) =>
      match statuses.find?
          (fun entry => decide (entry.pyGet "name" = PyVal.str s ∨
            entry.pyGet "slug" = PyVal.str s)) with
      | some entry => .ok (entry.pyGet "id")
      | none => .error ("Status \x27" ++ s ++ "\x27 not found for project "
          ++ toString project_id)

/-- `_resolve_task_status_id` from src/app.py:1669-1679 (identical up
to the error message and the status list consulted). -/
def _resolve_task_status_id (statuses : List Rec) (project_id : Int)
    (status : Option StatusVal) : Except String PyVal :=
  match status with
  | none => .ok .null
  | some (.int n) => .ok (.int n)
  | some (.str s) =>
      match statuses.find?
          (fun entry => decide (entry.pyGet "name" = PyVal.str s ∨
            entry.pyGet "slug" = PyVal.str s)) with
      | some entry => .ok (entry.pyGet "id")
      | none => .error ("Task status \x27" ++ s ++ "\x27 not found for project "
          ++ toString project_id)

/-! ## Idempotency cache (`_IdempotencyStore`, src/app.py:204-232)

Timestamps (`time.time()` values) are modelled as integer seconds —
only their ordered additive structure is used; each `get`/`store` takes
the current time explicitly. -/

structure IdemStore where
  ttl_seconds : ℤ
  entries : List (String × ℤ × Rec)
  deriving DecidableEq

namespace IdemStore

/-- `_purge_expired` (src/app.py:225-229): drop every entry whose
expiry has passed (`expires_at <= now`). -/
def _purge_expired (now : ℤ) (s : IdemStore) : IdemStore :=
  { s with entries := s.entries.filter (fun e => !(e.2.1 ≤ now)) }

/-- Dict lookup in the entries map. -/
def lookupEntry (s : IdemStore) (k : String) : Option (ℤ × Rec) :=
  (s.entries.find? (fun e => e.1 = k)).map (·.2)

/-- `get` (src/app.py:210-217): purge expired entries, then look up. -/
def get (now : ℤ) (s : IdemStore) (k : String) : Option Rec × IdemStore :=
  let s' := _purge_expired now s
  match s'.lookupEntry k with
  | none => (none, s')
  | some (_, value) => (some value, s')

/-- `store` (src/app.py:219-223): purge expired entries, then insert
with expiry `time.time() + ttl_seconds`. -/
def store (now : ℤ) (s : IdemStore) (k : String) (v : Rec) : IdemStore :=
  let s' := _purge_expired now s
  { s' with entries :=
      (s'.entries.filter (fun e => e.1 ≠ k)) ++ [(k, now + s.ttl_seconds, v)] }

end IdemStore

/-- The module-level `_IDEMPOTENCY_STORE = _IdempotencyStore()`
(src/app.py:205, 232): default TTL `24 * 60 * 60` seconds, no entries. -/
def fresh_IDEMPOTENCY_STORE : IdemStore :=
  { ttl_seconds := 24 * 60 * 60, entries := [] }

/-- `_make_idempotency_cache_key` (src/app.py:1641-1643), with the
SHA-256 hex digest abstracted as the function `digest`:
`f"{raw_key}:{sha256(f"{user_story_id}:{subject}").hexdigest()}"`. -/
def _make_idempotency_cache_key (digest : String → String) (raw_key : String)
    (user_story_id : Int) (subject : String) : String :=
  raw_key ++ ":" ++ digest (toString user_story_id ++ ":" ++ subject)

/-! ## Due-date validation (`_validate_due_date`, src/app.py:1646-1653) -/

def isLeapYear (y : Nat) : Bool :=
  (y % 4 == 0 && y % 100 != 0) || y % 400 == 0

def daysInMonth (y m : Nat) : Nat :=
  if m = 2 then (if isLeapYear y then 29 else 28)
  else if m = 4 ∨ m = 6 ∨ m = 9 ∨ m = 11 then 30 else 31

/-- `datetime.date.fromisoformat` restricted to the `YYYY-MM-DD` form
(Python 3.11+ also accepts other ISO-8601 forms such as `YYYYMMDD`;
the handlers only document and use `YYYY-MM-DD`). -/
def parseIsoDate (s : String) : Option (Nat × Nat × Nat) :=
  match s.toList with
  | [y1, y2, y3, y4, '-', m1, m2, '-', d1, d2] => do
      let a ← digitVal y1
      let b ← digitVal y2
      let c ← digitVal y3
      let d ← digitVal y4
      let e ← digitVal m1
      let f ← digitVal m2
      let g ← digitVal d1
      let h ← digitVal d2
      let y := a * 1000 + b * 100 + c * 10 + d
      let m := e * 10 + f
      let dy := g * 10 + h
      if 1 ≤ y ∧ 1 ≤ m ∧ m ≤ 12 ∧ 1 ≤ dy ∧ dy ≤ daysInMonth y m then
        some (y, m, dy)
      else
        none
  | _ => none

/-- `_validate_due_date` from src/app.py:1646-1653: `None` passes
through; otherwise the string must parse as an ISO date, and
`parsed.isoformat()` (equal to the zero-padded input) is returned; a
parse failure raises `ValueError("due_date must be in YYYY-MM-DD format")`. -/
def _validate_due_date (value : Option String) : Except String (Option String) :=
  match value with
  | none => .ok none
  | some s =>
      match parseIsoDate s with
      | some _ => .ok (some s)
      | none => .error "due_date must be in YYYY-MM-DD format"

/-! ## Upstream environments

Each handler runs against an explicit description of what the upstream
would answer during this request: the fetched record(s), the project's
status list, and the result of the write. -/

structure StoryEnv where
  story : StoryRec
  statuses : List Rec
  updateResult : Except TaigaAPIError Rec
  storyAfter : StoryRec

structure TaskEnv where
  task : TaskRec
  statuses : List Rec
  updateResult : Except TaigaAPIError Rec
  taskAfter : TaskRec

structure EpicEnv where
  epic : EpicRec
  updateResult : Except TaigaAPIError Rec

structure IssueEnv where
  issue : IssueRec
  updateResult : Except TaigaAPIError Rec

structure TaskCreateEnv where
  story : StoryRec
  statuses : List Rec
  createResult : Except TaigaAPIError Rec

structure ProjectEnv where
  byId : Except TaigaAPIError Rec
  bySlug : Except TaigaAPIError Rec

/-! ## Payload-building helpers shared by the handlers -/

/-- Store an optional entry (`payload[k] = v` only when a value was
produced). -/
def setOpt (r : Rec) (k : String) : Option PyVal → Rec
  | none => r
  | some v => r.set k v

/-- The stored value for a supplied `str | None` argument. -/
def argEntry : Arg String → Option PyVal
  | .unset => none
  | .null => some .null
  | .val s => some (.str s)

/-- The stored value for a supplied `int | None` argument. -/
def argIntEntry : Arg Int → Option PyVal
  | .unset => none
  | .null => some .null
  | .val n => some (.int n)

/-- The description-field update of the tool-surface updates
(src/app.py:1835-1844 and 2060-2069): an explicit `description`
overwrites; otherwise a non-`None` `append_description` appends to
`existing.get("description", "")` with a blank-line separator and
`.strip()` when the existing text is truthy, and is used verbatim
otherwise. -/
def descriptionUpdate (existingDescription : Option PyVal)
    (description append_description : Arg String) : Option PyVal :=
  match description with
  | .null => some .null
  | .val d => some (.str d)
  | .unset =>
      match append_description with
      | .val a =>
          let current := existingDescription.getD (PyVal.str "")
          if pyTruthy current then
            some (.str ((pyStr current ++ "\n\n" ++ a).trim))
          else
            some (.str a)
      | _ => none

/-- The tags-field update of the tool-surface updates
(src/app.py:1850-1857 and 2079-2086): an explicit `tags` overwrites
(`[] if tags is None else tags`); otherwise a non-`None` `add_tags`
merges into `sorted(set(existing.get("tags", [])) | set(add_tags))`. -/
def tagsUpdate (existingTags : Option (List String))
    (tags add_tags : Arg (List String)) : Option PyVal :=
  match tags with
  | .null => some (.strList [])
  | .val l => some (.strList l)
  | .unset =>
      match add_tags with
      | .val l => some (.strList (sortedTagUnion (existingTags.getD []) l))
      | _ => none

/-! ## REST-surface update helpers (src/app.py:797-835, 1235-1250,
1012-1027, 1437-1452) -/

/-- Shared tail of `_update_story_with_client`: resolve the version
from the fetched record (`existing.get("version")`; `None` or a
non-integer raises), attach it, and issue the update.  `pyToInt`
returning `none` covers both the `version is None` check and the
`int(version)` failure, which raise the same message. -/
def storyVersionAndUpdate (env : StoryEnv) (story_id : Int) (trace : List Call)
    (update_payload : Rec) : List Call × Outcome :=
  match pyToInt env.story.version with
  | none => (trace, .taigaError "Unable to resolve version for story update")
  | some n =>
      let p := update_payload.set "version" (.int n)
      let trace := trace ++ [Call.updateUserStory story_id p]
      match env.updateResult with
      | .ok updated => (trace, .ok updated)
      | .error exc => (trace, .taigaError exc.message)

/-- `_update_story_with_client` from src/app.py:797-835.  `status` is
the raw JSON value forwarded by the action (`None` when absent);
`project_for_status or existing.get("project")` uses Python truthiness,
so a zero `project_id` falls back to the story's project. -/
def _update_story_with_client (env : StoryEnv) (story_id : Int)
    (project_for_status : Option Int) (payload : Rec) (status : PyVal) :
    List Call × Outcome :=
  let trace0 : List Call := [Call.getUserStory story_id]
  let existing := env.story
  let pidRaw : PyVal :=
    match project_for_status with
    | some n => if n ≠ 0 then PyVal.int n else existing.project
    | none => existing.project
  -- `if project_id_for_status is not None: project_id_for_status = int(...)`
  let pid? : Option (Option Int) :=
    match pidRaw with
    | .null => some none
    | v => (pyToInt v).map some
  match pid? with
  | none => (trace0, .taigaError "Unable to resolve project for story status lookup")
  | some pidOpt =>
      match status with
      | .null => storyVersionAndUpdate env story_id trace0 payload
      | .int n => storyVersionAndUpdate env story_id trace0 (payload.set "status" (.int n))
      | .bool b =>
          -- `isinstance(status, int)` is true for bools; assigned verbatim
          storyVersionAndUpdate env story_id trace0 (payload.set "status" (.bool b))
      | .str s =>
          match pidOpt with
          | none => (trace0, .taigaError "Unable to resolve project for story status lookup")
          | some pid =>
              let trace1 := trace0 ++ [Call.listUserStoryStatuses pid]
              match _resolve_user_story_status_id env.statuses pid (some (.str s)) with
              | .error msg => (trace1, .taigaError msg)
              | .ok idv => storyVersionAndUpdate env story_id trace1 (payload.set "status" idv)
      | .strList _ => (trace0, .taigaError "status must be an integer or string")

/-- `_update_task_with_client` from src/app.py:1235-1250. -/
def _update_task_with_client (env : TaskEnv) (task_id : Int) (payload : Rec) :
    List Call × Outcome :=
  let trace0 : List Call := [Call.getTask task_id]
  match pyToInt env.task.version with
  | none => (trace0, .taigaError "Unable to resolve version for task update")
  | some n =>
      let p := payload.set "version" (.int n)
      let trace := trace0 ++ [Call.updateTask task_id p]
      match env.updateResult with
      | .ok updated => (trace, .ok updated)
      | .error exc => (trace, .taigaError exc.message)

/-- `_update_epic_with_client` from src/app.py:1012-1027. -/
def _update_epic_with_client (env : EpicEnv) (epic_id : Int) (payload : Rec) :
    List Call × Outcome :=
  let trace0 : List Call := [Call.getEpic epic_id]
  match pyToInt env.epic.version with
  | none => (trace0, .taigaError "Unable to resolve version for epic update")
  | some n =>
      let p := payload.set "version" (.int n)
      let trace := trace0 ++ [Call.updateEpic epic_id p]
      match env.updateResult with
      | .ok updated => (trace, .ok updated)
      | .error exc => (trace, .taigaError exc.message)

/-- `_update_issue_with_client` from src/app.py:1437-1452. -/
def _update_issue_with_client (env : IssueEnv) (issue_id : Int) (payload : Rec) :
    List Call × Outcome :=
  let trace0 : List Call := [Call.getIssue issue_id]
  match pyToInt env.issue.version with
  | none => (trace0, .taigaError "Unable to resolve version for issue update")
  | some n =>
      let p := payload.set "version" (.int n)
      let trace := trace0 ++ [Call.updateIssue issue_id p]
      match env.updateResult with
      | .ok updated => (trace, .ok updated)
      | .error exc => (trace, .taigaError exc.message)

/-! ## REST-surface action validation (src/app.py:710-764, 1157-1207,
273-294)

The validation phase of an action runs before any upstream call; on
success it hands the parsed pieces to the `_with_client` helper.  The
API-key check and JSON body parsing that precede it are connection
plumbing and are not modelled. -/

/-- Result of the local validation phase of a REST update action. -/
inductive RestActionStep where
  | error (msg : String) (status_code : Int)
  | proceedStory (story_id : Int) (project_for_status : Option Int)
      (payload : Rec) (status : PyVal)
  | proceedTask (task_id : Int) (payload : Rec)
  deriving DecidableEq, Repr

/-- The validation phase of `_update_story_action` (src/app.py:710-764):
required `story_id`, typed optional fields, the explicit rejection of a
`null` status (`"status cannot be null"`), and the at-least-one-field
check.  No upstream call happens before `proceedStory`. -/
def _update_story_action_validate (data : Rec) : RestActionStep :=
  if data.hasKey "story_id" = false then
    .error "Field \x27story_id\x27 is required" 400
  else
    match pyToInt (data.pyGet "story_id") with
    | none => .error "story_id must be an integer" 400
    | some story_id =>
      match (if data.hasKey "project_id" then
               match pyToInt (data.pyGet "project_id") with
               | none => Except.error "project_id must be an integer"
               | some n => Except.ok (some n)
             else Except.ok none) with
      | .error msg => .error msg 400
      | .ok pfs =>
        let payload1 : Rec :=
          match pfs with
          | some n => Rec.set [] "project" (.int n)
          | none => []
        let payload2 :=
          if data.hasKey "subject" then
            payload1.set "subject" (.str (pyStr (data.pyGet "subject")))
          else payload1
        let payload3 :=
          if data.hasKey "description" then
            payload2.set "description" (data.pyGet "description")
          else payload2
        match (if data.hasKey "tags" then
                 match data.pyGet "tags" with
                 | .null => Except.ok (payload3.set "tags" .null)
                 | .strList l => Except.ok (payload3.set "tags" (.strList l))
                 | _ => Except.error "tags must be a list"
               else Except.ok payload3) with
        | .error msg => .error msg 400
        | .ok payload4 =>
          match (if data.hasKey "assigned_to" then
                   match data.pyGet "assigned_to" with
                   | .null => Except.ok (payload4.set "assigned_to" .null)
                   | v =>
                       match pyToInt v with
                       | none => Except.error "assigned_to must be an integer"
                       | some n => Except.ok (payload4.set "assigned_to" (.int n))
                 else Except.ok payload4) with
          | .error msg => .error msg 400
          | .ok payload5 =>
            let status_present := data.hasKey "status"
            let status_value := if status_present then data.pyGet "status" else .null
            if status_present ∧ status_value = .null then
              .error "status cannot be null" 400
            else if payload5 = ([] : Rec) ∧ status_present = false then
              .error "At least one field must be provided to update" 400
            else
              .proceedStory story_id pfs payload5 status_value

/-- The validation phase of `_update_task_action` (src/app.py:1157-1207).
A present `status` goes through `_parse_int`, so an explicit `null`
fails with `"status must be an integer"`. -/
def _update_task_action_validate (data : Rec) : RestActionStep :=
  if data.hasKey "task_id" = false then
    .error "Field \x27task_id\x27 is required" 400
  else
    match pyToInt (data.pyGet "task_id") with
    | none => .error "task_id must be an integer" 400
    | some task_id =>
      let payload1 : Rec :=
        if data.hasKey "subject" then
          Rec.set [] "subject" (.str (pyStr (data.pyGet "subject")))
        else []
      let payload2 :=
        if data.hasKey "description" then
          payload1.set "description" (data.pyGet "description")
        else payload1
      match (if data.hasKey "status" then
               match pyToInt (data.pyGet "status") with
               | none => Except.error "status must be an integer"
               | some n => Except.ok (payload2.set "status" (.int n))
             else Except.ok payload2) with
      | .error msg => .error msg 400
      | .ok payload3 =>
        match (if data.hasKey "assigned_to" then
                 match data.pyGet "assigned_to" with
                 | .null => Except.ok (payload3.set "assigned_to" .null)
                 | v =>
                     match pyToInt v with
                     | none => Except.error "assigned_to must be an integer"
                     | some n => Except.ok (payload3.set "assigned_to" (.int n))
               else Except.ok payload3) with
        | .error msg => .error msg 400
        | .ok payload4 =>
          match (if data.hasKey "tags" then
                   match data.pyGet "tags" with
                   | .null => Except.ok (payload4.set "tags" .null)
                   | .strList l => Except.ok (payload4.set "tags" (.strList l))
                   | _ => Except.error "tags must be a list"
                 else Except.ok payload4) with
          | .error msg => .error msg 400
          | .ok payload5 =>
            match (if data.hasKey "user_story_id" then
                     match pyToInt (data.pyGet "user_story_id") with
                     | none => Except.error "user_story_id must be an integer"
                     | some n => Except.ok (payload5.set "user_story" (.int n))
                   else Except.ok payload5) with
            | .error msg => .error msg 400
            | .ok payload6 =>
              if payload6 = ([] : Rec) then
                .error "At least one field must be provided to update" 400
              else
                .proceedTask task_id payload6

/-- Result of `_get_project_action`. -/
inductive ProjectActionResult where
  | error (msg : String) (status_code : Int)
  | okProject (project : Rec)
  deriving DecidableEq, Repr

/-- `_get_project_action` from src/app.py:273-294: the success response
is `JSONResponse({"project": project})` — the fetched record is
returned whole, without `_slice`. -/
def _get_project_action (project_id_param : Option String)
    (fetched : Except TaigaAPIError Rec) : List Call × ProjectActionResult :=
  match project_id_param with
  | none => ([], .error "project_id is required" 400)
  | some p =>
      if p = "" then ([], .error "project_id is required" 400)
      else
        match strToInt p with
        | none => ([], .error "project_id must be an integer" 400)
        | some pid =>
            match fetched with
            | .ok project => ([Call.getProject pid], .okProject project)
            | .error exc => ([Call.getProject pid], .error exc.message 400)

/-! ## Tool surface: `taiga.projects.get` (src/app.py:1509-1524) -/

/-- `taiga_projects_get`: `(project_id is None) == (slug is None)` is
rejected before the client is even created; otherwise exactly one
lookup is issued.  The four-way match is that equality test spelt out. -/
def taiga_projects_get (env : ProjectEnv) (project_id : Option Int)
    (slug : Option String) : List Call × Outcome :=
  match project_id, slug with
  | some _, some _ => ([], .valueError "Provide either project_id or slug, but not both")
  | none, none => ([], .valueError "Provide either project_id or slug, but not both")
  | some pid, none =>
      ([Call.getProject pid],
        match env.byId with
        | .ok p => .ok p
        | .error exc => .taigaError exc.message)
  | none, some s =>
      ([Call.getProjectBySlug s],
        match env.bySlug with
        | .ok p => .ok p
        | .error exc => .taigaError exc.message)

/-! ## Tool surface: `taiga.stories.update` (src/app.py:1795-1904) -/

/-- Tail of `taiga_stories_update` after the status block: the
`has_updates` check, version resolution (an explicit non-`None`
`version` argument wins over the fetched record), the upstream PATCH,
and the `except TaigaAPIError` block whose `exc.status_code` attribute
lookup fails (`TaigaAPIError.statusCodeAttr`). -/
def storyUpdateFinish (env : StoryEnv) (user_story_id : Int) (trace : List Call)
    (payload : Rec) (has_updates : Bool) (version : Arg Int) : List Call × Outcome :=
  if has_updates = false then
    (trace, .valueError "At least one field must be provided to update the story")
  else
    let versioned : Option Rec :=
      match version with
      | .val v => some (payload.set "version" (.int v))
      | _ =>
          -- `version is UNSET or version is None`: use the fetched record
          match pyToInt env.story.version with
          | none => none
          | some n => some (payload.set "version" (.int n))
    match versioned with
    | none => (trace, .taigaError "Unable to resolve version for story update")
    | some p =>
        let trace1 := trace ++ [Call.updateUserStory user_story_id p]
        match env.updateResult with
        | .ok updated => (trace1, .ok updated)
        | .error exc =>
            match exc.statusCodeAttr with
            | some code =>
                if code = 409 then
                  (trace1 ++ [Call.getUserStory user_story_id],
                    .valueError ("Conflict updating user story "
                      ++ toString user_story_id ++ ": latest version is "
                      ++ pyStr env.storyAfter.version))
                else (trace1, .taigaError exc.message)
            | none => (trace1, .attributeError statusCodeAttributeErrorMsg)

/-- `taiga_stories_update` from src/app.py:1795-1904.  The story is
fetched first (to resolve its project), then the mutually-exclusive
sibling checks run, the payload is assembled, the status block may
fetch the project's status list, and `storyUpdateFinish` issues the
update.  `custom_attributes` is a dict argument passed through
verbatim; its value is modelled as an opaque `PyVal`. -/
def taiga_stories_update (env : StoryEnv) (user_story_id : Int)
    (subject description append_description : Arg String)
    (status : Arg StatusVal) (tags add_tags : Arg (List String))
    (assigned_to epic_id milestone_id : Arg Int)
    (custom_attributes : Arg PyVal) (version : Arg Int) :
    List Call × Outcome :=
  let trace0 : List Call := [Call.getUserStory user_story_id]
  match pyToInt env.story.project with
  | none => (trace0, .taigaError "Unable to resolve project for story update")
  | some project_id =>
    if description.isSupplied ∧ append_description.isSupplied then
      (trace0, .valueError "Cannot set both \x27description\x27 and \x27append_description\x27")
    else if tags.isSupplied ∧ add_tags.isSupplied then
      (trace0, .valueError "Cannot set both \x27tags\x27 and \x27add_tags\x27")
    else
      let descUpd := descriptionUpdate env.story.description description append_description
      let tagsUpd := tagsUpdate env.story.tags tags add_tags
      let p1 := setOpt [] "subject" (argEntry subject)
      let p2 := setOpt p1 "description" descUpd
      let p3 := setOpt p2 "tags" tagsUpd
      let p4 := setOpt p3 "assigned_to" (argIntEntry assigned_to)
      let p5 := setOpt p4 "epic" (argIntEntry epic_id)
      let p6 := setOpt p5 "milestone" (argIntEntry milestone_id)
      let p7 := setOpt p6 "custom_attributes"
        (match custom_attributes with
         | .unset => none
         | .null => some .null
         | .val v => some v)
      let has_updates := subject.isSupplied || descUpd.isSome || tagsUpd.isSome
        || assigned_to.isSupplied || epic_id.isSupplied || milestone_id.isSupplied
        || custom_attributes.isSupplied || status.isSupplied
      match status with
      | .unset => storyUpdateFinish env user_story_id trace0 p7 has_updates version
      | .null =>
          -- explicit `None` is stored in the payload, not rejected
          storyUpdateFinish env user_story_id trace0 (p7.set "status" .null)
            has_updates version
      | .val (.int n) =>
          storyUpdateFinish env user_story_id trace0 (p7.set "status" (.int n))
            has_updates version
      | .val (.str s) =>
          let trace1 := trace0 ++ [Call.listUserStoryStatuses project_id]
          match _resolve_user_story_status_id env.statuses project_id (some (.str s)) with
          | .error msg => (trace1, .taigaError msg)
          | .ok idv =>
              storyUpdateFinish env user_story_id trace1 (p7.set "status" idv)
                has_updates version

/-! ## Tool surface: `taiga.tasks.update` (src/app.py:2022-2123) -/

/-- Tail of `taiga_tasks_update` (same shape as `storyUpdateFinish`). -/
def taskUpdateFinish (env : TaskEnv) (task_id : Int) (trace : List Call)
    (payload : Rec) (has_updates : Bool) (version : Arg Int) : List Call × Outcome :=
  if has_updates = false then
    (trace, .valueError "At least one field must be provided to update the task")
  else
    let versioned : Option Rec :=
      match version with
      | .val v => some (payload.set "version" (.int v))
      | _ =>
          match pyToInt env.task.version with
          | none => none
          | some n => some (payload.set "version" (.int n))
    match versioned with
    | none => (trace, .taigaError "Unable to resolve version for task update")
    | some p =>
        let trace1 := trace ++ [Call.updateTask task_id p]
        match env.updateResult with
        | .ok updated => (trace1, .ok updated)
        | .error exc =>
            match exc.statusCodeAttr with
            | some code =>
                if code = 409 then
                  (trace1 ++ [Call.getTask task_id],
                    .valueError ("Conflict updating task "
                      ++ toString task_id ++ ": latest version is "
                      ++ pyStr env.taskAfter.version))
                else (trace1, .taigaError exc.message)
            | none => (trace1, .attributeError statusCodeAttributeErrorMsg)

/-- `taiga_tasks_update` from src/app.py:2022-2123. -/
def taiga_tasks_update (env : TaskEnv) (task_id : Int)
    (subject description append_description : Arg String)
    (assigned_to : Arg Int) (status : Arg StatusVal)
    (tags add_tags : Arg (List String)) (due_date : Arg String)
    (version : Arg Int) : List Call × Outcome :=
  let trace0 : List Call := [Call.getTask task_id]
  match pyToInt env.task.project with
  | none => (trace0, .taigaError "Unable to resolve project for task update")
  | some project_id =>
    if description.isSupplied ∧ append_description.isSupplied then
      (trace0, .valueError "Cannot set both \x27description\x27 and \x27append_description\x27")
    else if tags.isSupplied ∧ add_tags.isSupplied then
      (trace0, .valueError "Cannot set both \x27tags\x27 and \x27add_tags\x27")
    else
      let descUpd := descriptionUpdate env.task.description description append_description
      let tagsUpd := tagsUpdate env.task.tags tags add_tags
      let p1 := setOpt [] "subject" (argEntry subject)
      let p2 := setOpt p1 "description" descUpd
      let p3 := setOpt p2 "assigned_to" (argIntEntry assigned_to)
      let p4 := setOpt p3 "tags" tagsUpd
      -- due_date (src/app.py:2087-2089): `_validate_due_date` may raise
      let dueStep : Except String Rec :=
        match due_date with
        | .unset => .ok p4
        | .null => .ok (p4.set "due_date" .null)
        | .val s =>
            match _validate_due_date (some s) with
            | .error msg => .error msg
            | .ok none => .ok (p4.set "due_date" .null)
            | .ok (some t) => .ok (p4.set "due_date" (.str t))
      match dueStep with
      | .error msg => (trace0, .valueError msg)
      | .ok p5 =>
        let has_updates := subject.isSupplied || descUpd.isSome
          || assigned_to.isSupplied || tagsUpd.isSome
          || due_date.isSupplied || status.isSupplied
        match status with
        | .unset => taskUpdateFinish env task_id trace0 p5 has_updates version
        | .null =>
            taskUpdateFinish env task_id trace0 (p5.set "status" .null)
              has_updates version
        | .val (.int n) =>
            taskUpdateFinish env task_id trace0 (p5.set "status" (.int n))
              has_updates version
        | .val (.str s) =>
            let trace1 := trace0 ++ [Call.listTaskStatuses project_id]
            match _resolve_task_status_id env.statuses project_id (some (.str s)) with
            | .error msg => (trace1, .taigaError msg)
            | .ok idv =>
                taskUpdateFinish env task_id trace1 (p5.set "status" idv)
                  has_updates version

/-! ## Tool surface: `taiga.tasks.create` (src/app.py:1961-2015) -/

/-- Tail of `taiga_tasks_create` after a cache miss: issue the create,
and on success store the response under the cache key (when one was
derived). -/
def taskCreateAndStore (env : TaskCreateEnv) (now : ℤ) (store : IdemStore)
    (cache_key : Option String) (trace : List Call) (payload : Rec) :
    List Call × Outcome × IdemStore :=
  let trace1 := trace ++ [Call.createTask payload]
  match env.createResult with
  | .error exc => (trace1, .taigaError exc.message, store)
  | .ok task =>
      match cache_key with
      | some key => (trace1, .ok task, IdemStore.store now store key task)
      | none => (trace1, .ok task, store)

/-- `taiga_tasks_create` from src/app.py:1961-2015.  The story is
fetched first to resolve the project; a truthy `idempotency_key`
derives a cache key and consults the store (which purges expired
entries as a side effect) before anything else; a hit returns the
cached response without building a payload or calling upstream.
`digest` abstracts the SHA-256 hex digest of
`_make_idempotency_cache_key`; `now` is the `time.time()` at which this
call's cache accesses happen. -/
def taiga_tasks_create (digest : String → String) (env : TaskCreateEnv)
    (now : ℤ) (store0 : IdemStore) (user_story_id : Int) (subject : String)
    (description : Arg String) (assigned_to : Arg Int) (status : Arg StatusVal)
    (tags : Arg (List String)) (due_date : Arg String)
    (idempotency_key : Arg String) : List Call × Outcome × IdemStore :=
  let trace0 : List Call := [Call.getUserStory user_story_id]
  match pyToInt env.story.project with
  | none => (trace0, .taigaError "Unable to resolve project for task creation", store0)
  | some project_id =>
    -- `if idempotency_key is not UNSET and idempotency_key:`
    let ckey : Option String :=
      match idempotency_key with
      | .val k =>
          if k = "" then none
          else some (_make_idempotency_cache_key digest k user_story_id subject)
      | _ => none
    let afterCache : Option Rec × IdemStore :=
      match ckey with
      | some key => IdemStore.get now store0 key
      | none => (none, store0)
    match afterCache with
    | (some cached, store1) => (trace0, .ok cached, store1)
    | (none, store1) =>
        let payload0 : Rec :=
          [("project", .int project_id), ("user_story", .int user_story_id),
           ("subject", .str subject)]
        let p1 := setOpt payload0 "description" (argEntry description)
        let p2 := setOpt p1 "assigned_to" (argIntEntry assigned_to)
        let p3 :=
          match tags with
          | .unset => p2
          | .null => p2.set "tags" (.strList [])
          | .val l => p2.set "tags" (.strList l)
        let dueStep : Except String Rec :=
          match due_date with
          | .unset => .ok p3
          | .null => .ok (p3.set "due_date" .null)
          | .val s =>
              match _validate_due_date (some s) with
              | .error msg => .error msg
              | .ok none => .ok (p3.set "due_date" .null)
              | .ok (some t) => .ok (p3.set "due_date" (.str t))
        match dueStep with
        | .error msg => (trace0, .valueError msg, store1)
        | .ok p4 =>
          match status with
          | .unset => taskCreateAndStore env now store1 ckey trace0 p4
          | .null => taskCreateAndStore env now store1 ckey trace0 (p4.set "status" .null)
          | .val (.int n) =>
              taskCreateAndStore env now store1 ckey trace0 (p4.set "status" (.int n))
          | .val (.str s) =>
              let trace1 := trace0 ++ [Call.listTaskStatuses project_id]
              match _resolve_task_status_id env.statuses project_id (some (.str s)) with
              | .error msg => (trace1, .taigaError msg, store1)
              | .ok idv => taskCreateAndStore env now store1 ckey trace1 (p4.set "status" idv)

/-! ## Shared facts and demonstration data -/

/-- The per-entity field whitelist for project records
(src/app.py:261, 1494). -/
def projectListKeep : List String :=
  ["id", "name", "slug", "description", "is_private"]

/-- A project record as the upstream may return it, carrying a
`watchers` field outside the project whitelist. -/
def demoProjectRecord : Rec :=
  [("id", .int 1), ("name", .str "Demo"), ("slug", .str "demo"),
   ("description", .str "d"), ("is_private", .bool false),
   ("watchers", .strList ["alice"])]

/-- The match predicate of status resolution: the entry's `name` or
`slug` equals the requested string, exactly and case-sensitively. -/
def statusMatches (s : String) (entry : Rec) : Prop :=
  entry.pyGet "name" = PyVal.str s ∨ entry.pyGet "slug" = PyVal.str s

instance (s : String) (entry : Rec) : Decidable (statusMatches s entry) := by
  unfold statusMatches; infer_instance

/-- A one-entry status list for witnesses. -/
def demoStatuses : List Rec :=
  [[("id", .int 5), ("name", .str "In Progress"), ("slug", .str "in-progress")]]

/-- A story environment for counterexamples: project 1, version 3,
existing tags, successful upstream update. -/
def demoStoryEnv : StoryEnv :=
  { story := { project := .int 1, description := some (.str "old"),
               tags := some ["zeta", "alpha"], version := .int 3 },
    statuses := demoStatuses,
    updateResult := .ok [("id", .int 7), ("subject", .str "s")],
    storyAfter := { project := .int 1, version := .int 4 } }

/-! ## C10 — `taiga.projects.get` requires exactly one of id and slug -/

/-- C10: `taiga.projects.get` rejects calls supplying both or neither
of `project_id` and `slug` with a `ValueError`, issuing no upstream
call; with only `project_id` it fetches by id, with only `slug` it
fetches by slug. -/
theorem C10_projects_get_exactly_one :
    (∀ (env : ProjectEnv) (pid : Int) (s : String),
        taiga_projects_get env (some pid) (some s)
          = ([], .valueError "Provide either project_id or slug, but not both"))
  ∧ (∀ (env : ProjectEnv),
        taiga_projects_get env none none
          = ([], .valueError "Provide either project_id or slug, but not both"))
  ∧ (∀ (env : ProjectEnv) (pid : Int) (p : Rec), env.byId = .ok p →
        taiga_projects_get env (some pid) none = ([Call.getProject pid], .ok p))
  ∧ (∀ (env : ProjectEnv) (s : String) (p : Rec), env.bySlug = .ok p →
        taiga_projects_get env none (some s) = ([Call.getProjectBySlug s], .ok p)) := by
  refine ⟨fun env pid s => rfl, fun env => rfl, ?_, ?_⟩
  · intro env pid p h
    unfold taiga_projects_get
    rw [h]
  · intro env s p h
    unfold taiga_projects_get
    rw [h]

/-- C10 witness: a concrete id-only call fetches by id. -/
theorem C10_witness :
    taiga_projects_get ⟨.ok demoProjectRecord, .error ⟨"x"⟩⟩ (some 3) none
      = ([Call.getProject 3], .ok demoProjectRecord) :=
  C10_projects_get_exactly_one.2.2.1 ⟨.ok demoProjectRecord, .error ⟨"x"⟩⟩ 3
    demoProjectRecord rfl

/-! ## C8 — idempotency cache eviction and TTL -/

/-- C8: `get` never returns an entry whose expiry has passed — the
returned value always comes from an entry of the purged store whose
expiry is strictly in the future; both `get` and `store` purge every
expired entry before proceeding (after either access every surviving
old entry is unexpired, and `store` adds its fresh entry with expiry
`now + ttl_seconds`); the default store's TTL is 24 hours. -/
theorem C8_idempotency_cache_ttl :
    (∀ (now : ℤ) (s : IdemStore) (k : String) (v : Rec),
        (IdemStore.get now s k).1 = some v →
        ∃ exp, (k, (exp, v)) ∈ (IdemStore.get now s k).2.entries ∧ now < exp)
  ∧ (∀ (now : ℤ) (s : IdemStore) (k : String) (e : String × ℤ × Rec),
        e ∈ (IdemStore.get now s k).2.entries → now < e.2.1)
  ∧ (∀ (now : ℤ) (s : IdemStore) (k : String) (v : Rec) (e : String × ℤ × Rec),
        e ∈ (IdemStore.store now s k v).entries →
        now < e.2.1 ∨ e = (k, now + s.ttl_seconds, v))
  ∧ (∀ (now : ℤ) (s : IdemStore) (k : String) (v : Rec),
        (k, (now + s.ttl_seconds, v)) ∈ (IdemStore.store now s k v).entries)
  ∧ fresh_IDEMPOTENCY_STORE.ttl_seconds = 24 * 60 * 60 := by
  have hpurge : ∀ (now : ℤ) (s : IdemStore) (e : String × ℤ × Rec),
      e ∈ (IdemStore._purge_expired now s).entries → now < e.2.1 := by
    intro now s e he
    unfold IdemStore._purge_expired at he
    have := List.of_mem_filter he
    simpa using this
  have hget : ∀ (now : ℤ) (s : IdemStore) (k : String),
      IdemStore.get now s k =
        (((IdemStore._purge_expired now s).lookupEntry k).map (·.2),
          IdemStore._purge_expired now s) := by
    intro now s k
    simp only [IdemStore.get]
    cases h : (IdemStore._purge_expired now s).lookupEntry k with
    | none => simp [h]
    | some ev => obtain ⟨exp, val⟩ := ev; simp [h]
  refine ⟨?_, ?_, ?_, ?_, rfl⟩
  · intro now s k v hv
    rw [hget] at hv ⊢
    simp only
    cases hfind : (IdemStore._purge_expired now s).lookupEntry k with
    | none => rw [hfind] at hv; simp at hv
    | some ev =>
        obtain ⟨exp, val⟩ := ev
        rw [hfind] at hv
        simp only [Option.map_some', Option.some.injEq] at hv
        subst hv
        refine ⟨exp, ?_, ?_⟩
        · unfold IdemStore.lookupEntry at hfind
          cases hf : (IdemStore._purge_expired now s).entries.find? (fun e => e.1 = k) with
          | none => rw [hf] at hfind; simp at hfind
          | some e =>
              rw [hf] at hfind
              simp only [Option.map_some', Option.some.injEq] at hfind
              have hmem := List.mem_of_find?_eq_some hf
              have hek : e.1 = k := by
                have := List.find?_some hf
                simpa using this
              have he : e = (k, (exp, val)) := by
                obtain ⟨e1, e2⟩ := e
                simp only at hek hfind
                rw [hek, hfind]
              rw [← he]
              exact hmem
        · unfold IdemStore.lookupEntry at hfind
          cases hf : (IdemStore._purge_expired now s).entries.find? (fun e => e.1 = k) with
          | none => rw [hf] at hfind; simp at hfind
          | some e =>
              rw [hf] at hfind
              simp only [Option.map_some', Option.some.injEq] at hfind
              have hmem := List.mem_of_find?_eq_some hf
              have := hpurge now s e hmem
              rw [hfind] at this
              simpa using this
  · intro now s k e he
    rw [hget] at he
    exact hpurge now s e he
  · intro now s k v e he
    simp only [IdemStore.store, List.mem_append] at he
    rcases he with he | he
    · exact Or.inl (hpurge now s e (List.mem_of_mem_filter he))
    · right; simpa using he
  · intro now s k v
    simp [IdemStore.store]

/-- C8 witness: a fresh store, a `store` at time 0, and a `get` at time
1 returning the entry, whose expiry 86400 has not passed. -/
theorem C8_witness :
    (IdemStore.get 1 (IdemStore.store 0 fresh_IDEMPOTENCY_STORE "k" [("id", .int 1)]) "k").1
        = some [("id", .int 1)]
    ∧ (∃ exp, ("k", (exp, ([("id", .int 1)] : Rec))) ∈
        (IdemStore.get 1 (IdemStore.store 0 fresh_IDEMPOTENCY_STORE "k"
          [("id", .int 1)]) "k").2.entries ∧ (1 : ℤ) < exp) := by
  refine ⟨by decide, ?_⟩
  exact C8_idempotency_cache_ttl.1 1
    (IdemStore.store 0 fresh_IDEMPOTENCY_STORE "k" [("id", .int 1)]) "k"
    [("id", .int 1)] (by decide)

/-! ## C7 — status resolution -/

/-- C7: status resolution maps `null` to `null` and an integer to
itself unchanged; a string is matched exactly (case-sensitively)
against the `name` or `slug` of the entries of the project's status
list (story or task statuses depending on the operation) and resolves
to a matching entry's `id`; when no entry matches, it fails with a
"status not found" error naming the requested value and the project. -/
theorem C7_status_resolution :
    (∀ (statuses : List Rec) (pid : Int),
        _resolve_user_story_status_id statuses pid none = .ok .null
        ∧ _resolve_task_status_id statuses pid none = .ok .null)
  ∧ (∀ (statuses : List Rec) (pid n : Int),
        _resolve_user_story_status_id statuses pid (some (.int n)) = .ok (.int n)
        ∧ _resolve_task_status_id statuses pid (some (.int n)) = .ok (.int n))
  ∧ (∀ (statuses : List Rec) (pid : Int) (s : String),
        (∃ entry ∈ statuses, statusMatches s entry) →
        ∃ entry, entry ∈ statuses ∧ statusMatches s entry
          ∧ _resolve_user_story_status_id statuses pid (some (.str s))
              = .ok (entry.pyGet "id")
          ∧ _resolve_task_status_id statuses pid (some (.str s))
              = .ok (entry.pyGet "id"))
  ∧ (∀ (statuses : List Rec) (pid : Int) (s : String),
        (∀ entry ∈ statuses, ¬ statusMatches s entry) →
        _resolve_user_story_status_id statuses pid (some (.str s))
            = .error ("Status \x27" ++ s ++ "\x27 not found for project " ++ toString pid)
          ∧ _resolve_task_status_id statuses pid (some (.str s))
            = .error ("Task status \x27" ++ s ++ "\x27 not found for project "
                ++ toString pid)) := by
  refine ⟨fun statuses pid => ⟨rfl, rfl⟩, fun statuses pid n => ⟨rfl, rfl⟩, ?_, ?_⟩
  · intro statuses pid s hex
    have hsome : (statuses.find? (fun entry =>
        decide (entry.pyGet "name" = PyVal.str s ∨
          entry.pyGet "slug" = PyVal.str s))).isSome := by
      rw [List.find?_isSome]
      obtain ⟨entry, hmem, hmatch⟩ := hex
      exact ⟨entry, hmem, by simpa [statusMatches] using hmatch⟩
    cases hfind : statuses.find? (fun entry =>
        decide (entry.pyGet "name" = PyVal.str s ∨
          entry.pyGet "slug" = PyVal.str s)) with
    | none => rw [hfind] at hsome; simp at hsome
    | some entry =>
        refine ⟨entry, List.mem_of_find?_eq_some hfind, ?_, ?_, ?_⟩
        · have := List.find?_some hfind
          simpa [statusMatches] using this
        · simp only [_resolve_user_story_status_id, hfind]
        · simp only [_resolve_task_status_id, hfind]
  · intro statuses pid s hall
    have hnone : statuses.find? (fun entry =>
        decide (entry.pyGet "name" = PyVal.str s ∨
          entry.pyGet "slug" = PyVal.str s)) = none := by
      rw [List.find?_eq_none]
      intro entry hmem
      simpa [statusMatches] using hall entry hmem
    constructor
    · simp only [_resolve_user_story_status_id, hnone]
    · simp only [_resolve_task_status_id, hnone]

/-- C7 witness: resolving the string "In Progress" against a one-entry
status list yields that entry's id. -/
theorem C7_witness :
    ∃ entry, entry ∈ demoStatuses ∧ statusMatches "In Progress" entry
      ∧ _resolve_user_story_status_id demoStatuses 1 (some (.str "In Progress"))
          = .ok (entry.pyGet "id")
      ∧ _resolve_task_status_id demoStatuses 1 (some (.str "In Progress"))
          = .ok (entry.pyGet "id") :=
  C7_status_resolution.2.2.1 demoStatuses 1 "In Progress"
    ⟨[("id", .int 5), ("name", .str "In Progress"), ("slug", .str "in-progress")],
      by decide, by decide⟩

/-! ## C6 — field projection -/

/-- C6 counterexample: `_get_project_action` returns the fetched
project record whole; a record carrying a `watchers` field — outside
the project whitelist — reaches the caller unprojected, refuting "no
field outside the per-entity whitelist ever appears in the response". -/
theorem C6_counterexample_unprojected_response :
    _get_project_action (some "1") (.ok demoProjectRecord)
        = ([Call.getProject 1], .okProject demoProjectRecord)
    ∧ demoProjectRecord.hasKey "watchers" = true
    ∧ "watchers" ∉ projectListKeep := by
  refine ⟨by decide, rfl, by decide⟩

/-- C6 (amended): `_slice` is a pure projection — its result contains
exactly the whitelisted keys present in the record, with unchanged
values, and nothing else; it is however not applied to every response
(see the counterexample). -/
theorem C6_slice_pure_projection :
    (∀ (record : Rec) (keys : List String) (k : String),
        (_slice record keys).lookup? k =
          if k ∈ keys then record.lookup? k else none)
  ∧ (∀ (record : Rec) (keys : List String),
        (_slice record keys).keys = keys.filter (fun k => record.hasKey k)) :=
  ⟨_slice_lookup, _slice_keys⟩

/-! ## C3 — mutually exclusive sibling fields -/

/-- C3 counterexample: a story update supplying both `description` and
`append_description` does fail with the validation error, but only
after the story has been fetched — the trace of upstream calls is not
empty, refuting "no upstream read or write is issued". -/
theorem C3_counterexample_read_before_validation :
    taiga_stories_update demoStoryEnv 7 .unset (Arg.val "a") (Arg.val "b") .unset
        .unset .unset .unset .unset .unset .unset .unset
      = ([Call.getUserStory 7],
         .valueError "Cannot set both \x27description\x27 and \x27append_description\x27")
    ∧ (taiga_stories_update demoStoryEnv 7 .unset (Arg.val "a") (Arg.val "b") .unset
        .unset .unset .unset .unset .unset .unset .unset).1 ≠ ([] : List Call) := by
  refine ⟨by decide, by decide⟩

/-- C3 (amended): supplying both an overwrite field and its
append/merge sibling makes the update fail with the dedicated
validation error and no upstream *write* is ever issued — but the
initial entity fetch (an upstream read) has already happened, so the
trace is exactly that one read. -/
theorem C3_sibling_fields_fail_before_write :
    (∀ (env : StoryEnv) (id : Int) (subject : Arg String)
        (description append_description : Arg String) (status : Arg StatusVal)
        (tags add_tags : Arg (List String)) (assigned_to epic_id milestone_id : Arg Int)
        (custom_attributes : Arg PyVal) (version : Arg Int) (pj : Int),
        pyToInt env.story.project = some pj →
        description.isSupplied = true → append_description.isSupplied = true →
        taiga_stories_update env id subject description append_description status
            tags add_tags assigned_to epic_id milestone_id custom_attributes version
          = ([Call.getUserStory id],
             .valueError "Cannot set both \x27description\x27 and \x27append_description\x27"))
  ∧ (∀ (env : StoryEnv) (id : Int) (subject : Arg String)
        (description append_description : Arg String) (status : Arg StatusVal)
        (tags add_tags : Arg (List String)) (assigned_to epic_id milestone_id : Arg Int)
        (custom_attributes : Arg PyVal) (version : Arg Int) (pj : Int),
        pyToInt env.story.project = some pj →
        ¬ (description.isSupplied = true ∧ append_description.isSupplied = true) →
        tags.isSupplied = true → add_tags.isSupplied = true →
        taiga_stories_update env id subject description append_description status
            tags add_tags assigned_to epic_id milestone_id custom_attributes version
          = ([Call.getUserStory id],
             .valueError "Cannot set both \x27tags\x27 and \x27add_tags\x27"))
  ∧ (∀ (env : TaskEnv) (id : Int) (subject : Arg String)
        (description append_description : Arg String) (assigned_to : Arg Int)
        (status : Arg StatusVal) (tags add_tags : Arg (List String))
        (due_date : Arg String) (version : Arg Int) (pj : Int),
        pyToInt env.task.project = some pj →
        description.isSupplied = true → append_description.isSupplied = true →
        taiga_tasks_update env id subject description append_description assigned_to
            status tags add_tags due_date version
          = ([Call.getTask id],
             .valueError "Cannot set both \x27description\x27 and \x27append_description\x27"))
  ∧ (∀ (env : TaskEnv) (id : Int) (subject : Arg String)
        (description append_description : Arg String) (assigned_to : Arg Int)
        (status : Arg StatusVal) (tags add_tags : Arg (List String))
        (due_date : Arg String) (version : Arg Int) (pj : Int),
        pyToInt env.task.project = some pj →
        ¬ (description.isSupplied = true ∧ append_description.isSupplied = true) →
        tags.isSupplied = true → add_tags.isSupplied = true →
        taiga_tasks_update env id subject description append_description assigned_to
            status tags add_tags due_date version
          = ([Call.getTask id],
             .valueError "Cannot set both \x27tags\x27 and \x27add_tags\x27")) := by
  refine ⟨?_, ?_, ?_, ?_⟩
  · intro env id subject description append_description status tags add_tags
      assigned_to epic_id milestone_id custom_attributes version pj hp hd ha
    simp [taiga_stories_update, hp, hd, ha]
  · intro env id subject description append_description status tags add_tags
      assigned_to epic_id milestone_id custom_attributes version pj hp hda ht hat
    simp [taiga_stories_update, hp, hda, ht, hat]
  · intro env id subject description append_description assigned_to status tags
      add_tags due_date version pj hp hd ha
    simp [taiga_tasks_update, hp, hd, ha]
  · intro env id subject description append_description assigned_to status tags
      add_tags due_date version pj hp hda ht hat
    simp [taiga_tasks_update, hp, hda, ht, hat]

/-- C3 witness: concrete instantiation of the first conjunct. -/
theorem C3_witness :
    taiga_stories_update demoStoryEnv 9 .unset (Arg.val "x") (Arg.val "y") .unset
        .unset .unset .unset .unset .unset .unset .unset
      = ([Call.getUserStory 9],
         .valueError "Cannot set both \x27description\x27 and \x27append_description\x27") :=
  C3_sibling_fields_fail_before_write.1 demoStoryEnv 9 .unset (Arg.val "x")
    (Arg.val "y") .unset .unset .unset .unset .unset .unset .unset .unset 1
    rfl rfl rfl

/-! ## C5 — explicit `null` status -/

/-- C5 counterexample: on the tool surface an explicit `null` status is
*not* rejected — `taiga.stories.update` stores `status: None` in the
payload and issues the upstream update. -/
theorem C5_counterexample_tool_null_status_accepted :
    taiga_stories_update demoStoryEnv 7 .unset .unset .unset Arg.null .unset
        .unset .unset .unset .unset .unset .unset
      = ([Call.getUserStory 7,
          Call.updateUserStory 7 [("status", .null), ("version", .int 3)]],
         .ok [("id", .int 7), ("subject", .str "s")]) := by decide

/-- C5 (amended): the REST surface rejects an explicit `null` status
(story update: `"status cannot be null"`; task update: the integer
parse fails) — a validated request never proceeds with a present null
status — while the tool surface accepts explicit `null` and sends
`status: None` upstream. -/
theorem C5_null_status_rest_rejects_tool_accepts :
    (∀ (data : Rec) (sid : Int) (pfs : Option Int) (payload : Rec) (st : PyVal),
        _update_story_action_validate data = .proceedStory sid pfs payload st →
        data.hasKey "status" = true → data.pyGet "status" ≠ .null)
  ∧ (_update_story_action_validate [("story_id", .int 7), ("status", PyVal.null)]
        = .error "status cannot be null" 400)
  ∧ (∀ (data : Rec) (tid : Int) (payload : Rec),
        _update_task_action_validate data = .proceedTask tid payload →
        data.hasKey "status" = true → data.pyGet "status" ≠ .null)
  ∧ (_update_task_action_validate [("task_id", .int 7), ("status", PyVal.null)]
        = .error "status must be an integer" 400)
  ∧ (∀ (env : StoryEnv) (id pj vn : Int),
        pyToInt env.story.project = some pj →
        env.story.version = PyVal.int vn →
        (taiga_stories_update env id .unset .unset .unset Arg.null .unset .unset
            .unset .unset .unset .unset .unset).1
          = [Call.getUserStory id,
             Call.updateUserStory id [("status", PyVal.null), ("version", PyVal.int vn)]])
  ∧ (∀ (env : TaskEnv) (id pj vn : Int),
        pyToInt env.task.project = some pj →
        env.task.version = PyVal.int vn →
        (taiga_tasks_update env id .unset .unset .unset .unset Arg.null .unset
            .unset .unset .unset).1
          = [Call.getTask id,
             Call.updateTask id [("status", PyVal.null), ("version", PyVal.int vn)]]) := by
  refine ⟨?_, by decide, ?_, by decide, ?_, ?_⟩
  · intro data sid pfs payload st h hk hnull
    simp only [_update_story_action_validate] at h
    simp only [hk, hnull] at h
    simp at h
    repeat' first
      | split at h
      | exact absurd h (by simp)
  · intro data tid payload h hk hnull
    simp only [_update_task_action_validate] at h
    simp only [hk, hnull] at h
    simp only [pyToInt, strToInt, if_true, reduceIte] at h
    repeat' first
      | split at h
      | exact absurd h (by simp)
  · intro env id pj vn hp hv
    simp only [taiga_stories_update, storyUpdateFinish, Arg.isSupplied, argEntry,
      argIntEntry, descriptionUpdate, tagsUpdate, setOpt, hp, hv]
    simp only [pyToInt, TaigaAPIError.statusCodeAttr]
    cases env.updateResult <;> simp [Rec.set]
  · intro env id pj vn hp hv
    simp only [taiga_tasks_update, taskUpdateFinish, Arg.isSupplied, argEntry,
      argIntEntry, descriptionUpdate, tagsUpdate, setOpt, hp, hv]
    simp only [pyToInt, TaigaAPIError.statusCodeAttr]
    cases env.updateResult <;> simp [Rec.set]

/-- C5 witness: concrete instantiation of the REST-story conjunct — the
body `{"story_id": 7, "status": null}` never validates to a proceed
step (it errors), so the implication holds vacuously at any proceed
target; instantiated instead on the tool-surface conjunct with a
concrete environment. -/
theorem C5_witness :
    (taiga_stories_update demoStoryEnv 11 .unset .unset .unset Arg.null .unset
        .unset .unset .unset .unset .unset .unset).1
      = [Call.getUserStory 11,
         Call.updateUserStory 11 [("status", PyVal.null), ("version", PyVal.int 3)]] :=
  C5_null_status_rest_rejects_tool_accepts.2.2.2.2.1 demoStoryEnv 11 1 3 rfl rfl

/-! ## C9 — tag merge -/

/-- C9: an update with `add_tags` (story or task) sends upstream the
sorted duplicate-free union of the entity's existing tags and the added
tags, and this union depends only on the member sets of the inputs —
any reordering or duplication of either list yields the same payload. -/
theorem C9_tag_merge_sorted_union :
    (∀ (env : StoryEnv) (id pj vn : Int) (l : List String),
        pyToInt env.story.project = some pj →
        env.story.version = PyVal.int vn →
        (taiga_stories_update env id .unset .unset .unset .unset .unset (Arg.val l)
            .unset .unset .unset .unset .unset).1
          = [Call.getUserStory id,
             Call.updateUserStory id
               [("tags", PyVal.strList (sortedTagUnion (env.story.tags.getD []) l)),
                ("version", PyVal.int vn)]])
  ∧ (∀ (env : TaskEnv) (id pj vn : Int) (l : List String),
        pyToInt env.task.project = some pj →
        env.task.version = PyVal.int vn →
        (taiga_tasks_update env id .unset .unset .unset .unset .unset .unset
            (Arg.val l) .unset .unset).1
          = [Call.getTask id,
             Call.updateTask id
               [("tags", PyVal.strList (sortedTagUnion (env.task.tags.getD []) l)),
                ("version", PyVal.int vn)]])
  ∧ (∀ a b, (sortedTagUnion a b).Sorted (· ≤ ·))
  ∧ (∀ a b, (sortedTagUnion a b).Nodup)
  ∧ (∀ a b x, x ∈ sortedTagUnion a b ↔ x ∈ a ∨ x ∈ b)
  ∧ (∀ a b a' b', (∀ x, (x ∈ a ∨ x ∈ b) ↔ (x ∈ a' ∨ x ∈ b')) →
        sortedTagUnion a b = sortedTagUnion a' b') := by
  refine ⟨?_, ?_, sortedTagUnion_sorted, sortedTagUnion_nodup, sortedTagUnion_mem,
    sortedTagUnion_ext⟩
  · intro env id pj vn l hp hv
    simp only [taiga_stories_update, storyUpdateFinish, Arg.isSupplied, argEntry,
      argIntEntry, descriptionUpdate, tagsUpdate, setOpt, hp, hv]
    simp only [pyToInt, TaigaAPIError.statusCodeAttr]
    cases env.updateResult <;> simp [Rec.set]
  · intro env id pj vn l hp hv
    simp only [taiga_tasks_update, taskUpdateFinish, Arg.isSupplied, argEntry,
      argIntEntry, descriptionUpdate, tagsUpdate, setOpt, hp, hv]
    simp only [pyToInt, TaigaAPIError.statusCodeAttr]
    cases env.updateResult <;> simp [Rec.set]

/-- C9 witness: merging `["beta", "alpha"]` into a story whose tags are
`["zeta", "alpha"]` sends the sorted union. -/
theorem C9_witness :
    (taiga_stories_update demoStoryEnv 7 .unset .unset .unset .unset .unset
        (Arg.val ["beta", "alpha"]) .unset .unset .unset .unset .unset).1
      = [Call.getUserStory 7,
         Call.updateUserStory 7
           [("tags", PyVal.strList (sortedTagUnion ["zeta", "alpha"] ["beta", "alpha"])),
            ("version", PyVal.int 3)]] :=
  C9_tag_merge_sorted_union.1 demoStoryEnv 7 1 3 ["beta", "alpha"] rfl rfl

/-! ## C2 — version-conflict (HTTP 409) handling -/

/-- C2 (code bug): `TaigaAPIError` (src/taiga_client.py:18-19) never
carries a `status_code` attribute, so the `except TaigaAPIError`
handler of the story and task update tools (src/app.py:1893-1902,
2112-2121) crashes with `AttributeError` on *any* upstream update
failure — in particular on an HTTP 409 — before it can compare against
409; the documented re-fetch and conflict `ValueError` naming the
latest version are unreachable. -/
theorem C2_conflict_handler_attribute_error :
    (∀ (env : StoryEnv) (id pj vn : Int) (s : String) (exc : TaigaAPIError),
        pyToInt env.story.project = some pj →
        env.story.version = PyVal.int vn →
        env.updateResult = .error exc →
        taiga_stories_update env id (Arg.val s) .unset .unset .unset .unset .unset
            .unset .unset .unset .unset .unset
          = ([Call.getUserStory id,
              Call.updateUserStory id [("subject", .str s), ("version", .int vn)]],
             .attributeError statusCodeAttributeErrorMsg))
  ∧ (∀ (env : TaskEnv) (id pj vn : Int) (s : String) (exc : TaigaAPIError),
        pyToInt env.task.project = some pj →
        env.task.version = PyVal.int vn →
        env.updateResult = .error exc →
        taiga_tasks_update env id (Arg.val s) .unset .unset .unset .unset .unset
            .unset .unset .unset
          = ([Call.getTask id,
              Call.updateTask id [("subject", .str s), ("version", .int vn)]],
             .attributeError statusCodeAttributeErrorMsg))
  ∧ TaigaAPIError.statusCodeAttr
      ⟨"Taiga API request failed with status 409: version conflict"⟩ = none := by
  refine ⟨?_, ?_, rfl⟩
  · intro env id pj vn s exc hp hv hr
    simp only [taiga_stories_update, storyUpdateFinish, Arg.isSupplied, argEntry,
      argIntEntry, descriptionUpdate, tagsUpdate, setOpt, hp, hv, hr]
    simp only [pyToInt, TaigaAPIError.statusCodeAttr]
    simp [Rec.set]
  · intro env id pj vn s exc hp hv hr
    simp only [taiga_tasks_update, taskUpdateFinish, Arg.isSupplied, argEntry,
      argIntEntry, descriptionUpdate, tagsUpdate, setOpt, hp, hv, hr]
    simp only [pyToInt, TaigaAPIError.statusCodeAttr]
    simp [Rec.set]

/-- C2 witness: a story update whose upstream PATCH fails with a 409
response raises `AttributeError`, not the documented conflict error. -/
theorem C2_witness :
    taiga_stories_update
        { story := { project := .int 1, version := .int 3 },
          statuses := [],
          updateResult := .error
            ⟨"Taiga API request failed with status 409: version conflict"⟩,
          storyAfter := { project := .int 1, version := .int 4 } }
        7 (Arg.val "s") .unset .unset .unset .unset .unset .unset .unset .unset
        .unset .unset
      = ([Call.getUserStory 7,
          Call.updateUserStory 7 [("subject", .str "s"), ("version", .int 3)]],
         .attributeError statusCodeAttributeErrorMsg) :=
  C2_conflict_handler_attribute_error.1
    { story := { project := .int 1, version := .int 3 },
      statuses := [],
      updateResult := .error
        ⟨"Taiga API request failed with status 409: version conflict"⟩,
      storyAfter := { project := .int 1, version := .int 4 } }
    7 1 3 "s" ⟨"Taiga API request failed with status 409: version conflict"⟩
    rfl rfl rfl

/-! ## C1 — the version attached to update payloads -/

/-- Any update issued by the REST story tail carries the version of the
fetched story. -/
theorem storyVersionAndUpdate_payload_version {env : StoryEnv} {sid : Int}
    {tr : List Call} {p : Rec} {vn : Int} {id : Int} {q : Rec}
    (hv : env.story.version = PyVal.int vn)
    (htr : ∀ q', Call.updateUserStory id q' ∉ tr)
    (hq : Call.updateUserStory id q ∈ (storyVersionAndUpdate env sid tr p).1) :
    q.lookup? "version" = some (PyVal.int vn) := by
  simp only [storyVersionAndUpdate, hv] at hq
  simp only [pyToInt] at hq
  cases hres : env.updateResult with
  | ok u =>
      rw [hres] at hq
      simp only [List.mem_append, List.mem_singleton] at hq
      rcases hq with hq | hq
      · exact absurd hq (htr q)
      · simp only [Call.updateUserStory.injEq] at hq
        rw [hq.2]
        exact Rec.lookup?_set_self _ _ _
  | error exc =>
      rw [hres] at hq
      simp only [List.mem_append, List.mem_singleton] at hq
      rcases hq with hq | hq
      · exact absurd hq (htr q)
      · simp only [Call.updateUserStory.injEq] at hq
        rw [hq.2]
        exact Rec.lookup?_set_self _ _ _

/-- Any update issued by the tool-surface story tail carries the
version of the fetched story when no explicit override was supplied. -/
theorem storyUpdateFinish_payload_version {env : StoryEnv} {id' : Int}
    {tr : List Call} {p : Rec} {has : Bool} {ver : Arg Int} {vn id : Int} {q : Rec}
    (hv : env.story.version = PyVal.int vn)
    (hver : ver = Arg.unset ∨ ver = Arg.null)
    (htr : ∀ q', Call.updateUserStory id q' ∉ tr)
    (hq : Call.updateUserStory id q ∈ (storyUpdateFinish env id' tr p has ver).1) :
    q.lookup? "version" = some (PyVal.int vn) := by
  rcases hver with hver | hver <;> subst hver <;>
  · simp only [storyUpdateFinish, hv] at hq
    simp only [pyToInt, TaigaAPIError.statusCodeAttr] at hq
    by_cases hhas : has = false
    · rw [if_pos hhas] at hq
      exact absurd hq (htr q)
    · rw [if_neg hhas] at hq
      cases hres : env.updateResult with
      | ok u =>
          rw [hres] at hq
          simp only [List.mem_append, List.mem_singleton] at hq
          rcases hq with hq | hq
          · exact absurd hq (htr q)
          · simp only [Call.updateUserStory.injEq] at hq
            rw [hq.2]
            exact Rec.lookup?_set_self _ _ _
      | error exc =>
          rw [hres] at hq
          simp only [List.mem_append, List.mem_singleton] at hq
          rcases hq with hq | hq
          · exact absurd hq (htr q)
          · simp only [Call.updateUserStory.injEq] at hq
            rw [hq.2]
            exact Rec.lookup?_set_self _ _ _

/-- With an explicit (non-`None`) `version` argument, the tool-surface
story tail sends the caller's version instead. -/
theorem storyUpdateFinish_payload_version_val {env : StoryEnv} {id' : Int}
    {tr : List Call} {p : Rec} {has : Bool} {v : Int} {id : Int} {q : Rec}
    (htr : ∀ q', Call.updateUserStory id q' ∉ tr)
    (hq : Call.updateUserStory id q ∈ (storyUpdateFinish env id' tr p has (Arg.val v)).1) :
    q.lookup? "version" = some (PyVal.int v) := by
  simp only [storyUpdateFinish, TaigaAPIError.statusCodeAttr] at hq
  by_cases hhas : has = false
  · rw [if_pos hhas] at hq
    exact absurd hq (htr q)
  · rw [if_neg hhas] at hq
    cases hres : env.updateResult with
    | ok u =>
        rw [hres] at hq
        simp only [List.mem_append, List.mem_singleton] at hq
        rcases hq with hq | hq
        · exact absurd hq (htr q)
        · simp only [Call.updateUserStory.injEq] at hq
          rw [hq.2]
          exact Rec.lookup?_set_self _ _ _
    | error exc =>
        rw [hres] at hq
        simp only [List.mem_append, List.mem_singleton] at hq
        rcases hq with hq | hq
        · exact absurd hq (htr q)
        · simp only [Call.updateUserStory.injEq] at hq
          rw [hq.2]
          exact Rec.lookup?_set_self _ _ _

/-- Task analogue of `storyUpdateFinish_payload_version`. -/
theorem taskUpdateFinish_payload_version {env : TaskEnv} {id' : Int}
    {tr : List Call} {p : Rec} {has : Bool} {ver : Arg Int} {vn id : Int} {q : Rec}
    (hv : env.task.version = PyVal.int vn)
    (hver : ver = Arg.unset ∨ ver = Arg.null)
    (htr : ∀ q', Call.updateTask id q' ∉ tr)
    (hq : Call.updateTask id q ∈ (taskUpdateFinish env id' tr p has ver).1) :
    q.lookup? "version" = some (PyVal.int vn) := by
  rcases hver with hver | hver <;> subst hver <;>
  · simp only [taskUpdateFinish, hv] at hq
    simp only [pyToInt, TaigaAPIError.statusCodeAttr] at hq
    by_cases hhas : has = false
    · rw [if_pos hhas] at hq
      exact absurd hq (htr q)
    · rw [if_neg hhas] at hq
      cases hres : env.updateResult with
      | ok u =>
          rw [hres] at hq
          simp only [List.mem_append, List.mem_singleton] at hq
          rcases hq with hq | hq
          · exact absurd hq (htr q)
          · simp only [Call.updateTask.injEq] at hq
            rw [hq.2]
            exact Rec.lookup?_set_self _ _ _
      | error exc =>
          rw [hres] at hq
          simp only [List.mem_append, List.mem_singleton] at hq
          rcases hq with hq | hq
          · exact absurd hq (htr q)
          · simp only [Call.updateTask.injEq] at hq
            rw [hq.2]
            exact Rec.lookup?_set_self _ _ _

/-- Task analogue of `storyUpdateFinish_payload_version_val`. -/
theorem taskUpdateFinish_payload_version_val {env : TaskEnv} {id' : Int}
    {tr : List Call} {p : Rec} {has : Bool} {v : Int} {id : Int} {q : Rec}
    (htr : ∀ q', Call.updateTask id q' ∉ tr)
    (hq : Call.updateTask id q ∈ (taskUpdateFinish env id' tr p has (Arg.val v)).1) :
    q.lookup? "version" = some (PyVal.int v) := by
  simp only [taskUpdateFinish, TaigaAPIError.statusCodeAttr] at hq
  by_cases hhas : has = false
  · rw [if_pos hhas] at hq
    exact absurd hq (htr q)
  · rw [if_neg hhas] at hq
    cases hres : env.updateResult with
    | ok u =>
        rw [hres] at hq
        simp only [List.mem_append, List.mem_singleton] at hq
        rcases hq with hq | hq
        · exact absurd hq (htr q)
        · simp only [Call.updateTask.injEq] at hq
          rw [hq.2]
          exact Rec.lookup?_set_self _ _ _
    | error exc =>
        rw [hres] at hq
        simp only [List.mem_append, List.mem_singleton] at hq
        rcases hq with hq | hq
        · exact absurd hq (htr q)
        · simp only [Call.updateTask.injEq] at hq
          rw [hq.2]
          exact Rec.lookup?_set_self _ _ _

/-- C1 counterexample: the tool surface accepts an explicit `version`
override — a story update supplying `version = 5` against a story
fetched at version 3 sends version 5 upstream, not the fetched 3. -/
theorem C1_counterexample_version_override :
    (taiga_stories_update demoStoryEnv 7 (Arg.val "s") .unset .unset .unset .unset
        .unset .unset .unset .unset .unset (Arg.val 5)).1
      = [Call.getUserStory 7,
         Call.updateUserStory 7 [("subject", .str "s"), ("version", .int 5)]]
    ∧ demoStoryEnv.story.version = PyVal.int 3
    ∧ PyVal.int 5 ≠ PyVal.int 3 := by
  refine ⟨by decide, rfl, by decide⟩

/-- C1 (amended): every update payload sent upstream carries a
`version`; on the REST surface (story, task, epic, issue) and on the
tool surface when no explicit `version` override is supplied (omitted
or `None`), it equals the version of the record fetched immediately
before; the tool-surface story/task updates alone accept an explicit
override, which is sent verbatim. -/
theorem C1_update_payload_version :
    (∀ (env : StoryEnv) (sid : Int) (pfs : Option Int) (payload : Rec) (st : PyVal)
        (vn id : Int) (q : Rec),
        env.story.version = PyVal.int vn →
        Call.updateUserStory id q ∈ (_update_story_with_client env sid pfs payload st).1 →
        q.lookup? "version" = some (PyVal.int vn))
  ∧ (∀ (env : TaskEnv) (tid : Int) (payload : Rec) (vn id : Int) (q : Rec),
        env.task.version = PyVal.int vn →
        Call.updateTask id q ∈ (_update_task_with_client env tid payload).1 →
        q.lookup? "version" = some (PyVal.int vn))
  ∧ (∀ (env : EpicEnv) (eid : Int) (payload : Rec) (vn id : Int) (q : Rec),
        env.epic.version = PyVal.int vn →
        Call.updateEpic id q ∈ (_update_epic_with_client env eid payload).1 →
        q.lookup? "version" = some (PyVal.int vn))
  ∧ (∀ (env : IssueEnv) (iid : Int) (payload : Rec) (vn id : Int) (q : Rec),
        env.issue.version = PyVal.int vn →
        Call.updateIssue id q ∈ (_update_issue_with_client env iid payload).1 →
        q.lookup? "version" = some (PyVal.int vn))
  ∧ (∀ (env : StoryEnv) (sid : Int) (subject description append_description : Arg String)
        (status : Arg StatusVal) (tags add_tags : Arg (List String))
        (assigned_to epic_id milestone_id : Arg Int) (custom_attributes : Arg PyVal)
        (version : Arg Int) (vn id : Int) (q : Rec),
        env.story.version = PyVal.int vn →
        (version = Arg.unset ∨ version = Arg.null) →
        Call.updateUserStory id q ∈
          (taiga_stories_update env sid subject description append_description status
            tags add_tags assigned_to epic_id milestone_id custom_attributes version).1 →
        q.lookup? "version" = some (PyVal.int vn))
  ∧ (∀ (env : TaskEnv) (tid : Int) (subject description append_description : Arg String)
        (assigned_to : Arg Int) (status : Arg StatusVal)
        (tags add_tags : Arg (List String)) (due_date : Arg String)
        (version : Arg Int) (vn id : Int) (q : Rec),
        env.task.version = PyVal.int vn →
        (version = Arg.unset ∨ version = Arg.null) →
        Call.updateTask id q ∈
          (taiga_tasks_update env tid subject description append_description
            assigned_to status tags add_tags due_date version).1 →
        q.lookup? "version" = some (PyVal.int vn))
  ∧ (∀ (env : StoryEnv) (sid : Int) (subject description append_description : Arg String)
        (status : Arg StatusVal) (tags add_tags : Arg (List String))
        (assigned_to epic_id milestone_id : Arg Int) (custom_attributes : Arg PyVal)
        (v : Int) (id : Int) (q : Rec),
        Call.updateUserStory id q ∈
          (taiga_stories_update env sid subject description append_description status
            tags add_tags assigned_to epic_id milestone_id custom_attributes (Arg.val v)).1 →
        q.lookup? "version" = some (PyVal.int v))
  ∧ (∀ (env : TaskEnv) (tid : Int) (subject description append_description : Arg String)
        (assigned_to : Arg Int) (status : Arg StatusVal)
        (tags add_tags : Arg (List String)) (due_date : Arg String)
        (v : Int) (id : Int) (q : Rec),
        Call.updateTask id q ∈
          (taiga_tasks_update env tid subject description append_description
            assigned_to status tags add_tags due_date (Arg.val v)).1 →
        q.lookup? "version" = some (PyVal.int v)) := by
  refine ⟨?_, ?_, ?_, ?_, ?_, ?_, ?_, ?_⟩
  · -- REST story
    intro env sid pfs payload st vn id q hv hq
    simp only [_update_story_with_client] at hq
    split at hq
    · simp at hq
    · split at hq
      · exact storyVersionAndUpdate_payload_version hv (by intro q' h; simp at h) hq
      · exact storyVersionAndUpdate_payload_version hv (by intro q' h; simp at h) hq
      · exact storyVersionAndUpdate_payload_version hv (by intro q' h; simp at h) hq
      · split at hq
        · simp at hq
        · split at hq
          · simp at hq
          · exact storyVersionAndUpdate_payload_version hv (by intro q' h; simp at h) hq
      · simp at hq
  · -- REST task
    intro env tid payload vn id q hv hq
    simp only [_update_task_with_client, hv] at hq
    simp only [pyToInt] at hq
    cases hres : env.updateResult with
    | ok u =>
        rw [hres] at hq
        simp only [List.cons_append, List.nil_append, List.mem_cons,
          List.not_mem_nil, or_false] at hq
        rcases hq with hq | hq
        · simp at hq
        · simp only [Call.updateTask.injEq] at hq
          rw [hq.2]
          exact Rec.lookup?_set_self _ _ _
    | error exc =>
        rw [hres] at hq
        simp only [List.cons_append, List.nil_append, List.mem_cons,
          List.not_mem_nil, or_false] at hq
        rcases hq with hq | hq
        · simp at hq
        · simp only [Call.updateTask.injEq] at hq
          rw [hq.2]
          exact Rec.lookup?_set_self _ _ _
  · -- REST epic
    intro env eid payload vn id q hv hq
    simp only [_update_epic_with_client, hv] at hq
    simp only [pyToInt] at hq
    cases hres : env.updateResult with
    | ok u =>
        rw [hres] at hq
        simp only [List.cons_append, List.nil_append, List.mem_cons,
          List.not_mem_nil, or_false] at hq
        rcases hq with hq | hq
        · simp at hq
        · simp only [Call.updateEpic.injEq] at hq
          rw [hq.2]
          exact Rec.lookup?_set_self _ _ _
    | error exc =>
        rw [hres] at hq
        simp only [List.cons_append, List.nil_append, List.mem_cons,
          List.not_mem_nil, or_false] at hq
        rcases hq with hq | hq
        · simp at hq
        · simp only [Call.updateEpic.injEq] at hq
          rw [hq.2]
          exact Rec.lookup?_set_self _ _ _
  · -- REST issue
    intro env iid payload vn id q hv hq
    simp only [_update_issue_with_client, hv] at hq
    simp only [pyToInt] at hq
    cases hres : env.updateResult with
    | ok u =>
        rw [hres] at hq
        simp only [List.cons_append, List.nil_append, List.mem_cons,
          List.not_mem_nil, or_false] at hq
        rcases hq with hq | hq
        · simp at hq
        · simp only [Call.updateIssue.injEq] at hq
          rw [hq.2]
          exact Rec.lookup?_set_self _ _ _
    | error exc =>
        rw [hres] at hq
        simp only [List.cons_append, List.nil_append, List.mem_cons,
          List.not_mem_nil, or_false] at hq
        rcases hq with hq | hq
        · simp at hq
        · simp only [Call.updateIssue.injEq] at hq
          rw [hq.2]
          exact Rec.lookup?_set_self _ _ _
  · -- tool story, no override
    intro env sid subject description append_description status tags add_tags
      assigned_to epic_id milestone_id custom_attributes version vn id q hv hver hq
    simp only [taiga_stories_update] at hq
    cases hpj : pyToInt env.story.project with
    | none => simp only [hpj] at hq; simp at hq
    | some pj =>
        simp only [hpj] at hq
        split at hq
        · simp at hq
        · split at hq
          · simp at hq
          · split at hq
            · exact storyUpdateFinish_payload_version hv hver (by intro q' h; simp at h) hq
            · exact storyUpdateFinish_payload_version hv hver (by intro q' h; simp at h) hq
            · exact storyUpdateFinish_payload_version hv hver (by intro q' h; simp at h) hq
            · split at hq
              · simp at hq
              · exact storyUpdateFinish_payload_version hv hver (by intro q' h; simp at h) hq
  · -- tool task, no override
    intro env tid subject description append_description assigned_to status tags
      add_tags due_date version vn id q hv hver hq
    simp only [taiga_tasks_update] at hq
    cases hpj : pyToInt env.task.project with
    | none => simp only [hpj] at hq; simp at hq
    | some pj =>
        simp only [hpj] at hq
        split at hq
        · simp at hq
        · split at hq
          · simp at hq
          · split at hq
            · simp at hq
            · split at hq
              · exact taskUpdateFinish_payload_version hv hver (by intro q' h; simp at h) hq
              · exact taskUpdateFinish_payload_version hv hver (by intro q' h; simp at h) hq
              · exact taskUpdateFinish_payload_version hv hver (by intro q' h; simp at h) hq
              · split at hq
                · simp at hq
                · exact taskUpdateFinish_payload_version hv hver (by intro q' h; simp at h) hq
  · -- tool story, explicit override
    intro env sid subject description append_description status tags add_tags
      assigned_to epic_id milestone_id custom_attributes v id q hq
    simp only [taiga_stories_update] at hq
    cases hpj : pyToInt env.story.project with
    | none => simp only [hpj] at hq; simp at hq
    | some pj =>
        simp only [hpj] at hq
        split at hq
        · simp at hq
        · split at hq
          · simp at hq
          · split at hq
            · exact storyUpdateFinish_payload_version_val (by intro q' h; simp at h) hq
            · exact storyUpdateFinish_payload_version_val (by intro q' h; simp at h) hq
            · exact storyUpdateFinish_payload_version_val (by intro q' h; simp at h) hq
            · split at hq
              · simp at hq
              · exact storyUpdateFinish_payload_version_val (by intro q' h; simp at h) hq
  · -- tool task, explicit override
    intro env tid subject description append_description assigned_to status tags
      add_tags due_date v id q hq
    simp only [taiga_tasks_update] at hq
    cases hpj : pyToInt env.task.project with
    | none => simp only [hpj] at hq; simp at hq
    | some pj =>
        simp only [hpj] at hq
        split at hq
        · simp at hq
        · split at hq
          · simp at hq
          · split at hq
            · simp at hq
            · split at hq
              · exact taskUpdateFinish_payload_version_val (by intro q' h; simp at h) hq
              · exact taskUpdateFinish_payload_version_val (by intro q' h; simp at h) hq
              · exact taskUpdateFinish_payload_version_val (by intro q' h; simp at h) hq
              · split at hq
                · simp at hq
                · exact taskUpdateFinish_payload_version_val (by intro q' h; simp at h) hq

/-- C1 witness: the update issued by a concrete tool-surface story
update with no version override carries the fetched version 3. -/
theorem C1_witness :
    Rec.lookup? [("subject", PyVal.str "s"), ("version", PyVal.int 3)] "version"
      = some (PyVal.int 3) :=
  C1_update_payload_version.2.2.2.2.1 demoStoryEnv 7 (Arg.val "s") .unset .unset
    .unset .unset .unset .unset .unset .unset .unset .unset 3 7
    [("subject", PyVal.str "s"), ("version", PyVal.int 3)] rfl (Or.inl rfl)
    (by decide)

/-! ## C4 — idempotent task creation -/

/-- `get` in terms of the purged store. -/
theorem IdemStore.get_eq_purge (now : ℤ) (s : IdemStore) (k : String) :
    IdemStore.get now s k =
      (((IdemStore._purge_expired now s).lookupEntry k).map (·.2),
        IdemStore._purge_expired now s) := by
  simp only [IdemStore.get]
  cases h : (IdemStore._purge_expired now s).lookupEntry k with
  | none => simp [h]
  | some ev => obtain ⟨exp, val⟩ := ev; simp [h]

/-- C4: two task-creation calls with the same truthy idempotency key
and the same (story id, subject), the second within 24h-TTL reach of
the first, return the same response: the first call stores the created
task under the cache key derived from the raw token and the digest of
`story id : subject`; the second call (whatever its other arguments)
returns that stored response, and the upstream create endpoint is
invoked exactly once across the two calls. -/
theorem C4_idempotent_task_create
    (digest : String → String) (env1 env2 : TaskCreateEnv) (s0 : IdemStore)
    (t1 t2 : ℤ) (sid : Int) (subj key : String) (task1 : Rec) (p1 p2 : Int)
    (d2 : Arg String) (a2 : Arg Int) (st2 : Arg StatusVal)
    (tg2 : Arg (List String)) (dd2 : Arg String)
    (hkey : key ≠ "")
    (hp1 : pyToInt env1.story.project = some p1)
    (hp2 : pyToInt env2.story.project = some p2)
    (hcr : env1.createResult = .ok task1)
    (hmiss : (IdemStore._purge_expired t1 s0).lookupEntry
        (_make_idempotency_cache_key digest key sid subj) = none)
    (httl : t2 < t1 + s0.ttl_seconds) :
    (taiga_tasks_create digest env1 t1 s0 sid subj .unset .unset .unset .unset
        .unset (Arg.val key)).2.1 = .ok task1
    ∧ (taiga_tasks_create digest env2 t2
        (taiga_tasks_create digest env1 t1 s0 sid subj .unset .unset .unset .unset
          .unset (Arg.val key)).2.2
        sid subj d2 a2 st2 tg2 dd2 (Arg.val key)).2.1 = .ok task1
    ∧ (((taiga_tasks_create digest env1 t1 s0 sid subj .unset .unset .unset .unset
          .unset (Arg.val key)).1
        ++ (taiga_tasks_create digest env2 t2
            (taiga_tasks_create digest env1 t1 s0 sid subj .unset .unset .unset
              .unset .unset (Arg.val key)).2.2
            sid subj d2 a2 st2 tg2 dd2 (Arg.val key)).1).countP
          (fun c => match c with | Call.createTask _ => true | _ => false)) = 1 := by
  have hkf : (key = "") = False := by simp [hkey]
  set K := _make_idempotency_cache_key digest key sid subj with hK
  -- the first call misses the cache, creates, and stores
  have hget1 : IdemStore.get t1 s0 K = (none, IdemStore._purge_expired t1 s0) := by
    rw [IdemStore.get_eq_purge, hmiss]
    rfl
  have hr1 : taiga_tasks_create digest env1 t1 s0 sid subj .unset .unset .unset
      .unset .unset (Arg.val key)
      = ([Call.getUserStory sid,
          Call.createTask [("project", .int p1), ("user_story", .int sid),
            ("subject", .str subj)]],
         .ok task1,
         IdemStore.store t1 (IdemStore._purge_expired t1 s0) K task1) := by
    simp only [taiga_tasks_create, hp1, hkf, if_false, ← hK, hget1, setOpt,
      argEntry, argIntEntry, taskCreateAndStore, hcr]
    rfl
  -- the key is found (unexpired) by the second call
  have hlookup2 : (IdemStore._purge_expired t2
      (IdemStore.store t1 (IdemStore._purge_expired t1 s0) K task1)).lookupEntry K
      = some (t1 + s0.ttl_seconds, task1) := by
    simp only [IdemStore.store, IdemStore._purge_expired, IdemStore.lookupEntry]
    rw [List.filter_append, List.find?_append]
    have hnone : ∀ (l : List (String × ℤ × Rec)),
        (List.filter (fun e => !decide (e.2.1 ≤ t2))
          (List.filter (fun e => decide (e.1 ≠ K)) l)).find?
            (fun e => decide (e.1 = K)) = none := by
      intro l
      rw [List.find?_eq_none]
      intro e he
      have h2 := List.mem_of_mem_filter he
      have h3 := List.of_mem_filter h2
      simpa using h3
    rw [hnone]
    have hpred : ¬ (t1 + s0.ttl_seconds ≤ t2) := not_le.2 httl
    simp [List.filter, List.find?, hpred]
  have hget2 : IdemStore.get t2
      (IdemStore.store t1 (IdemStore._purge_expired t1 s0) K task1) K
      = (some task1, IdemStore._purge_expired t2
          (IdemStore.store t1 (IdemStore._purge_expired t1 s0) K task1)) := by
    rw [IdemStore.get_eq_purge, hlookup2]
    rfl
  have hr2 : taiga_tasks_create digest env2 t2
      (IdemStore.store t1 (IdemStore._purge_expired t1 s0) K task1)
      sid subj d2 a2 st2 tg2 dd2 (Arg.val key)
      = ([Call.getUserStory sid], .ok task1,
         IdemStore._purge_expired t2
           (IdemStore.store t1 (IdemStore._purge_expired t1 s0) K task1)) := by
    simp only [taiga_tasks_create, hp2, hkf, if_false, ← hK, hget2]
  have h21 : (taiga_tasks_create digest env1 t1 s0 sid subj .unset .unset .unset
      .unset .unset (Arg.val key)).2.1 = Outcome.ok task1 := by rw [hr1]
  have h1t : (taiga_tasks_create digest env1 t1 s0 sid subj .unset .unset .unset
      .unset .unset (Arg.val key)).1
      = [Call.getUserStory sid, Call.createTask [("project", .int p1),
          ("user_story", .int sid), ("subject", .str subj)]] := by rw [hr1]
  have h22 : (taiga_tasks_create digest env1 t1 s0 sid subj .unset .unset .unset
      .unset .unset (Arg.val key)).2.2
      = IdemStore.store t1 (IdemStore._purge_expired t1 s0) K task1 := by rw [hr1]
  rw [h22, hr2, h21, h1t]
  refine ⟨rfl, rfl, ?_⟩
  simp [List.countP_cons]

/-- C4 witness: a concrete pair of calls sharing key "retry-1" on story
7 / subject "t": the second call returns the first call's created task
and only one create is issued. -/
theorem C4_witness :
    (taiga_tasks_create (fun s => s)
        { story := { project := .int 1 }, statuses := [],
          createResult := .ok [("id", .int 42)] }
        0 fresh_IDEMPOTENCY_STORE 7 "t" .unset .unset .unset .unset .unset
        (Arg.val "retry-1")).2.1 = .ok [("id", .int 42)]
    ∧ (taiga_tasks_create (fun s => s)
        { story := { project := .int 1 }, statuses := [],
          createResult := .error ⟨"upstream unavailable"⟩ }
        3600
        (taiga_tasks_create (fun s => s)
          { story := { project := .int 1 }, statuses := [],
            createResult := .ok [("id", .int 42)] }
          0 fresh_IDEMPOTENCY_STORE 7 "t" .unset .unset .unset .unset .unset
          (Arg.val "retry-1")).2.2
        7 "t" (Arg.val "changed") .unset .unset .unset .unset
        (Arg.val "retry-1")).2.1 = .ok [("id", .int 42)]
    ∧ (((taiga_tasks_create (fun s => s)
          { story := { project := .int 1 }, statuses := [],
            createResult := .ok [("id", .int 42)] }
          0 fresh_IDEMPOTENCY_STORE 7 "t" .unset .unset .unset .unset .unset
          (Arg.val "retry-1")).1
        ++ (taiga_tasks_create (fun s => s)
            { story := { project := .int 1 }, statuses := [],
              createResult := .error ⟨"upstream unavailable"⟩ }
            3600
            (taiga_tasks_create (fun s => s)
              { story := { project := .int 1 }, statuses := [],
                createResult := .ok [("id", .int 42)] }
              0 fresh_IDEMPOTENCY_STORE 7 "t" .unset .unset .unset .unset .unset
              (Arg.val "retry-1")).2.2
            7 "t" (Arg.val "changed") .unset .unset .unset .unset
            (Arg.val "retry-1")).1).countP
          (fun c => match c with | Call.createTask _ => true | _ => false)) = 1 :=
  C4_idempotent_task_create (fun s => s)
    { story := { project := .int 1 }, statuses := [],
      createResult := .ok [("id", .int 42)] }
    { story := { project := .int 1 }, statuses := [],
      createResult := .error ⟨"upstream unavailable"⟩ }
    fresh_IDEMPOTENCY_STORE 0 3600 7 "t" "retry-1" [("id", .int 42)] 1 1
    (Arg.val "changed") .unset .unset .unset .unset
    (by decide) rfl rfl rfl (by decide) (by decide)

end TaigaMcp
